import Mathlib

set_option autoImplicit false
set_option maxHeartbeats 1000000

/-!
# Verification of the Recoverable-Revenue transaction-parsing engine

Shallow embedding of the segment-oriented parsing and semantic-mapping code of
the repository (`denials_db_loader.py`, `scripts/eob_to_835.py`,
`scripts/realtime_eligibility.py`, `scripts/etl_engine.py`), together with
proofs about the embedded functions.

Conventions used throughout:
* Python strings are Lean `String`s; the corpus is ASCII, so `str.strip`,
  `str.upper`, `str.split` are modelled by the executable functions in the
  `Py` namespace below.
* Python dicts keyed by strings are association lists (`List (String × _)`),
  looked up with `alookup` (first match wins, as in a dict without duplicate
  keys).
* Money amounts written by the corpus always carry exactly two decimals
  (they are produced by regexes of the form `[\d,]+\.\d{2}` or formatted with
  `"{:.2f}"`), so in `EobTo835` they are embedded as integer cents; there
  `round(x, 2)` is the identity and the float comparison `a > b + 0.005`
  is the integer comparison `a > b`.  Where a float is parsed from an
  arbitrary element (`float(eb07)` in the eligibility parser,
  `float(parts[3])` in the denials loader) the value is an exact decimal
  `Py.Dec` (mantissa and decimal-exponent) obtained with `Py.parseDec?`,
  which models `float()` on plain decimal literals (sign, digits, optional
  fractional part) and fails on anything else.  The decimal literals the
  repository feeds to `float()` are exactly representable, so the exact
  decimal and the IEEE double agree on everything the code does with them
  (storing, comparing with zero, truncating with `int()`).
* `datetime` instants are encoded as the natural number
  `((y*13 + m)*32 + d)*86400 + secondOfDay`, which is strictly monotone in
  lexicographic (y, m, d, time) order, so `<` on encodings agrees with `<`
  on datetimes.
-/

namespace Py

/-- Characters removed by Python `str.strip()` (ASCII whitespace). -/
def isSpace (c : Char) : Bool :=
  c == ' ' || c == '\t' || c == '\n' || c == '\x0d' || c == '\x0b' || c == '\x0c'

/-- Python `str.strip()` on ASCII text. -/
def strip (s : String) : String :=
  ⟨((s.data.dropWhile isSpace).reverse.dropWhile isSpace).reverse⟩

/-- Python `str.upper()` on one ASCII character. -/
def upperChar (c : Char) : Char :=
  if 'a' ≤ c && c ≤ 'z' then Char.ofNat (c.toNat - 32) else c

/-- Python `str.upper()` on ASCII text. -/
def upper (s : String) : String := ⟨s.data.map upperChar⟩

/-- Split a character list at every occurrence of `c`
(Python `str.split(sep)` with a one-character separator). -/
def splitChar (c : Char) : List Char → List (List Char)
  | [] => [[]]
  | x :: xs =>
    let r := splitChar c xs
    if x == c then [] :: r
    else
      match r with
      | h :: t => (x :: h) :: t
      | [] => [[x]]

/-- Python `s.split(sep)` for a one-character separator `sep`. -/
def split (s : String) (c : Char) : List String :=
  (splitChar c s.data).map fun l => ⟨l⟩

/-- Python `s.replace(c, "")` for a one-character needle. -/
def removeChar (c : Char) (s : String) : String :=
  ⟨s.data.filter fun x => x != c⟩

/-- Boolean prefix test on character lists. -/
def leadsWith : List Char → List Char → Bool
  | [], _ => true
  | _ :: _, [] => false
  | a :: as, b :: bs => a == b && leadsWith as bs

/-- Python `s.startswith(t)`. -/
def startsWith (s t : String) : Bool := leadsWith t.data s.data

def hasSubAux (t : List Char) : List Char → Bool
  | [] => leadsWith t []
  | c :: cs => leadsWith t (c :: cs) || hasSubAux t cs

/-- Python `t in s` (substring containment). -/
def hasSub (s t : String) : Bool := hasSubAux t.data s.data

/-- Numeric value of a list of decimal digits. -/
def digitsVal (l : List Char) : Nat :=
  l.foldl (fun a c => a * 10 + (c.toNat - 48)) 0

def allDigits (l : List Char) : Bool := l.all Char.isDigit

/-- An exact decimal number `mant / 10 ^ exp`: the value of a parsed Python
float literal.  Two decimals are equal as numbers iff cross-multiplication
agrees; the code only ever stores these values, compares them with zero and
truncates them, and on those operations `Dec` agrees exactly with the IEEE
double Python would hold. -/
structure Dec where
  mant : Int
  exp : Nat
deriving DecidableEq, Repr

/-- The rational value denoted by an exact decimal. -/
def Dec.toRat (d : Dec) : ℚ := (d.mant : ℚ) / (10 : ℚ) ^ d.exp

/-- `d > 0` as a value comparison (the sign of the mantissa). -/
def Dec.isPos (d : Dec) : Bool := 0 < d.mant

/-- `d == 0.0` as a value comparison. -/
def Dec.isZero (d : Dec) : Bool := d.mant == 0

/-- Python `int(x)` on a float: truncation toward zero. -/
def Dec.trunc (d : Dec) : Int := Int.tdiv d.mant ((10 : Int) ^ d.exp)

/-- The float `0.0`. -/
def Dec.zero : Dec := ⟨0, 0⟩

/-- Model of Python `float()` restricted to plain decimal literals:
optional surrounding whitespace, optional sign, digits, and an optional
fractional part.  All float-valued strings produced or consumed by this
repository have that shape; any other input yields `none` (the embedding
of an uncaught `ValueError`). -/
def parseDec? (s : String) : Option Dec :=
  let l := (strip s).data
  let signed : Int × List Char :=
    match l with
    | '-' :: rest => (-1, rest)
    | '+' :: rest => (1, rest)
    | _ => (1, l)
  match splitChar '.' signed.2 with
  | [ip] =>
      if ip ≠ [] && allDigits ip then some ⟨signed.1 * digitsVal ip, 0⟩ else none
  | [ip, fp] =>
      if (ip ≠ [] || fp ≠ []) && allDigits ip && allDigits fp then
        some ⟨signed.1 * ((digitsVal ip : Int) * (10 : Int) ^ fp.length + digitsVal fp),
              fp.length⟩
      else none
  | _ => none

end Py

/-- First-match association-list lookup: the embedding of a Python
dict lookup (`d[k]` / `d.get(k)`). -/
def alookup {β : Type} : List (String × β) → String → Option β
  | [], _ => none
  | (k, v) :: rest, key => if k == key then some v else alookup rest key

/-- Python `d.get(k, dflt)`. -/
def mget {β : Type} (m : List (String × β)) (k : String) (dflt : β) : β :=
  (alookup m k).getD dflt

/-- Python dict assignment `d[k] = v`: replace the first binding of `k`,
or append a fresh binding. -/
def dset {β : Type} : List (String × β) → String → β → List (String × β)
  | [], k, v => [(k, v)]
  | (k', v') :: rest, k, v =>
    if k' == k then (k', v) :: rest else (k', v') :: dset rest k v

/-!
## `denials_db_loader.py` — `parse_835_file`

Embedding of `parse_835_file` (lines 141–193).  The function reads the file,
removes newlines, splits on `~` into segments and on `*` into elements, and
builds one flat denial dict per CLP segment.  `float(parts[3])` can raise
`ValueError`; the embedding therefore returns an `Option`, with `none`
standing for an uncaught exception.
-/

namespace DenialsDB

structure ClaimDenial where
  Claim_ID : String
  Status : String
  Balance_Amount : Py.Dec
  Payer_ID : String
  CPT_Code : String
  CARC_Code : String
  RARC_Code : String
  Denial_Date : String
  Practice_Type : String
deriving DecidableEq, Repr

structure ParseState where
  payer : Option String
  current : Option ClaimDenial
  results : List ClaimDenial
deriving Repr

/-- `parts[i]` under a bound already checked by the source
(`len(parts) > i`). -/
def elemN (parts : List String) (i : Nat) : String := (parts.get? i).getD ""

/-- One iteration of the `for seg in segments` loop of `parse_835_file`. -/
def step (practice : String) (st : ParseState) (seg : String) : Option ParseState :=
  let parts := Py.split seg '*'
  if parts.length == 0 || parts.headD "" == "" then some st
  else
    let tag := parts.headD ""
    if tag == "N1" then
      if parts.length > 2 && elemN parts 1 == "PR" then
        some { st with payer := some (elemN parts 2) }
      else some st
    else if tag == "CLP" then
      let results := st.results ++ st.current.toList
      let bal? : Option Py.Dec :=
        if parts.length > 3 && elemN parts 3 != "" then Py.parseDec? (elemN parts 3)
        else some Py.Dec.zero
      match bal? with
      | none => none
      | some bal =>
          some { payer := st.payer
                 current := some
                   { Claim_ID := if parts.length > 1 then elemN parts 1 else ""
                     Status := if parts.length > 2 then elemN parts 2 else ""
                     Balance_Amount := bal
                     Payer_ID := st.payer.getD ""
                     CPT_Code := ""
                     CARC_Code := ""
                     RARC_Code := ""
                     Denial_Date := ""
                     Practice_Type := practice }
                 results := results }
    else if tag == "CAS" then
      match st.current with
      | none => some st
      | some cur =>
          if parts.length ≥ 3 then
            let code := elemN parts 2
            if cur.CARC_Code == "" then
              some { st with current := some { cur with CARC_Code := code } }
            else if cur.RARC_Code == "" then
              some { st with current := some { cur with RARC_Code := code } }
            else some st
          else some st
    else if tag == "SVC" then
      match st.current with
      | none => some st
      | some cur =>
          if parts.length > 1 && Py.startsWith (elemN parts 1) "HC:" then
            let cpt := elemN (Py.split (elemN parts 1) ':') 1
            if cur.CPT_Code == "" then
              some { st with current := some { cur with CPT_Code := cpt } }
            else some st
          else some st
    else if tag == "DTM" then
      match st.current with
      | none => some st
      | some cur =>
          if parts.length ≥ 3 && (elemN parts 1 == "232" || elemN parts 1 == "233") then
            some { st with current := some { cur with Denial_Date := elemN parts 2 } }
          else some st
    else some st

/-- `parse_835_file`, from raw file text (with `practice_type` already a
string; the source defaults `None` to `""`). -/
def parse835 (raw : String) (practice : String) : Option (List ClaimDenial) := do
  let segments := Py.split (Py.removeChar '\n' raw) '~'
  let st ← segments.foldlM (step practice) ⟨none, none, []⟩
  pure (st.results ++ st.current.toList)

end DenialsDB

/-!
## `scripts/eob_to_835.py` — service lines, status derivation, CAS emission,
CARC mapping and its audit

Money amounts in this module are integer cents: every amount entering the
functions below is matched by the service-line regex `\$\s*([\d,]+\.\d{2})`
or by `_extract_dollar`, hence carries exactly two decimals, and the float
operations performed on them (`+`, `-`, `round(·, 2)`, comparisons against
`0`, `0.005` and each other) are exact in cents.  `round(x, 2)` is the
identity on cents and `a > b + 0.005` is `a > b` on integer cents.
-/

namespace EobTo835

/-- One value of `DEFAULT_CARC_MAPPING` / a custom mapping row. -/
structure CarcEntry where
  standard_code : String
  description : String
deriving DecidableEq, Repr

/-- `DEFAULT_CARC_MAPPING` (lines 28–39). -/
def DEFAULT_CARC_MAPPING : List (String × CarcEntry) :=
  [("N001", ⟨"167", "Medical necessity"⟩),
   ("N002", ⟨"185", "Provider not eligible"⟩),
   ("N003", ⟨"197", "Authorization"⟩),
   ("N004", ⟨"29", "Timely filing"⟩),
   ("N005", ⟨"27", "Coverage terminated"⟩),
   ("N006", ⟨"18", "Duplicate"⟩),
   ("N007", ⟨"4", "Modifier error"⟩),
   ("N008", ⟨"97", "Bundling"⟩),
   ("N009", ⟨"1", "Deductible"⟩),
   ("N010", ⟨"222", "Benefit limits"⟩)]

/-- `STANDARD_CARC_DESCRIPTIONS` (lines 42–58). -/
def STANDARD_CARC_DESCRIPTIONS : List (String × String) :=
  [("1", "Deductible amount"),
   ("2", "Coinsurance amount"),
   ("3", "Copay amount"),
   ("4", "The procedure code is inconsistent with the modifier used"),
   ("16", "Claim/service lacks information or has submission/billing error(s)"),
   ("18", "Exact duplicate claim/service"),
   ("27", "Expenses incurred after coverage terminated"),
   ("29", "The time limit for filing has expired"),
   ("45", "Charge exceeds fee schedule/maximum allowable"),
   ("50", "These are non-covered services"),
   ("97", "The benefit for this service is included in payment for another service"),
   ("167", "This (these) diagnosis(es) is (are) not covered"),
   ("185", "The rendering provider is not eligible to perform the service billed"),
   ("197", "Precertification/authorization/notification absent"),
   ("222", "Exceeds the facility\x27s maximum length of stay or benefit limits")]

/-- `map_carc_code` (lines 156–164): strip the code, look it up, return the
standard code on a hit and the stripped code otherwise. -/
def map_carc_code (code : String) (mapping : List (String × CarcEntry)) : String :=
  let c := Py.strip code
  match alookup mapping c with
  | some e => e.standard_code
  | none => c

/-- One parsed service-detail line (`make_service_line` /
`_parse_service_line`, lines 106–119 and 409–449); amounts in cents. -/
structure ServiceLine where
  line_number : String
  cpt : String
  description : String
  billed : Int
  allowed : Int
  deductible : Int
  copay : Int
  adj_codes : List String
  adj_amount : Int
  paid : Int
deriving DecidableEq, Repr

/-- A parsed EOB (`make_eob`, lines 65–103); amounts in cents. -/
structure Eob where
  payer_name : String
  payer_id : String
  plan_type : String
  date : String
  eob_number : String
  tax_id : String
  patient_name : String
  patient_dob : String
  member_id : String
  group : String
  patient_account : String
  relationship : String
  provider_name : String
  npi : String
  provider_address_line : String
  provider_city : String
  provider_state : String
  provider_zip : String
  claim_number : String
  received_date : String
  service_from : String
  service_to : String
  place_of_service : String
  claim_status : String
  service_lines : List ServiceLine
  total_billed : Int
  total_allowed : Int
  total_deductible : Int
  total_copay : Int
  total_adjustment : Int
  total_paid : Int
  patient_responsibility : Int
  adjustment_reason_codes : List (String × String)
  remarks : List (String × String)
  source_file : String
deriving DecidableEq, Repr

/-- `make_service_line` (lines 106–119): the empty service line. -/
def make_service_line : ServiceLine :=
  { line_number := "", cpt := "", description := "", billed := 0, allowed := 0
    deductible := 0, copay := 0, adj_codes := [], adj_amount := 0, paid := 0 }

/-- `make_eob` (lines 65–103): the empty EOB. -/
def make_eob : Eob :=
  { payer_name := "", payer_id := "", plan_type := "", date := "", eob_number := ""
    tax_id := "", patient_name := "", patient_dob := "", member_id := "", group := ""
    patient_account := "", relationship := "", provider_name := "", npi := ""
    provider_address_line := "", provider_city := "", provider_state := ""
    provider_zip := "", claim_number := "", received_date := "", service_from := ""
    service_to := "", place_of_service := "", claim_status := "", service_lines := []
    total_billed := 0, total_allowed := 0, total_deductible := 0, total_copay := 0
    total_adjustment := 0, total_paid := 0, patient_responsibility := 0
    adjustment_reason_codes := [], remarks := [], source_file := "" }

/-- A consistent single-line EOB: the service line of the worked example in
the `_parse_service_line` doc string,
`1  99214  Office visit  $145.00  $132.31  $52.92  $0.00  97  $29.97  $79.39`,
with totals matching the line (amounts in cents). -/
def eobConsistentSample : Eob :=
  { make_eob with
      total_billed := 14500
      total_paid := 7939
      service_lines := [{ make_service_line with
        line_number := "1"
        cpt := "99214"
        billed := 14500
        allowed := 13231
        deductible := 5292
        copay := 0
        adj_codes := ["97"]
        adj_amount := 2997
        paid := 7939 }] }

/-- A fully denied single-line EOB with a deductible: parsed from the
service line `1  97110  Therapy  $100.00  $0.00  $50.00  $0.00  1  $0.00
$0.00` and the totals `Total Billed: $100.00`, `Total Paid: $0.00`
(amounts in cents). -/
def eobDeniedDeductibleSample : Eob :=
  { make_eob with
      claim_status := "DENIED"
      total_billed := 10000
      total_paid := 0
      service_lines := [{ make_service_line with
        line_number := "1"
        cpt := "97110"
        billed := 10000
        allowed := 0
        deductible := 5000
        copay := 0
        adj_codes := ["1"]
        adj_amount := 0
        paid := 0 }] }

/-- `determine_claim_status_code` (lines 461–477). -/
def determine_claim_status_code (eob : Eob) : String :=
  let plan := Py.upper eob.plan_type
  let status := Py.upper eob.claim_status
  if status == "DENIED" || eob.total_paid == 0 then "4"
  else if Py.hasSub plan "SECONDARY" then "2"
  else "1"

/-- One CAS adjustment entry `(group code, reason code, amount)` emitted for
a service line by `generate_835`. -/
structure Adjustment where
  group : String
  reason : String
  amount : Int
deriving DecidableEq, Repr

/-- The CO-category codes collected from a line's `adj_codes` by the
`for raw_code in svc["adj_codes"]` loop of `generate_835` (lines 630–640):
each code is mapped, and mapped codes `"1"/"2"/"3"` are skipped. -/
def coAdjCodes (svc : ServiceLine) (mapping : List (String × CarcEntry)) : List String :=
  (svc.adj_codes.map fun raw => map_carc_code raw mapping).filter
    fun mapped => ¬(mapped == "1" || mapped == "2" || mapped == "3")

/-- The inferred coinsurance of a service line (lines 623–628):
`(allowed − paid) − (deductible + copay)` when `allowed > 0` and that
difference exceeds half a cent, else `0`. -/
def coinsurance (svc : ServiceLine) : Int :=
  if svc.allowed > 0 ∧ svc.deductible + svc.copay < svc.allowed - svc.paid then
    svc.allowed - svc.paid - (svc.deductible + svc.copay)
  else 0

/-- `pr_total_from_line` (line 648). -/
def prTotalFromLine (svc : ServiceLine) : Int :=
  svc.deductible + svc.copay + coinsurance svc

/-- `co_net` (lines 644–651): adjustment amount minus the patient
responsibility portion, clipped at zero. -/
def coNet (svc : ServiceLine) : Int :=
  max (svc.adj_amount - prTotalFromLine svc) 0

/-- The CO-group CAS entries emitted for one service line
(lines 653–685).  A CAS segment carrying several code/amount pairs is
modelled as one entry per pair (the extra codes carry amount `0.00`, as in
the source). -/
def casCO (svc : ServiceLine) (mapping : List (String × CarcEntry)) : List Adjustment :=
  let co := coAdjCodes svc mapping
  if co ≠ [] ∧ coNet svc > 0 then
    ⟨"CO", co.headD "", coNet svc⟩ ::
      ((co.drop 1).take 5).map fun c => ⟨"CO", c, 0⟩
  else if co ≠ [] ∧ svc.adj_amount > 0 ∧ prTotalFromLine svc = 0 then
    ⟨"CO", co.headD "", svc.adj_amount⟩ ::
      ((co.drop 1).take 5).map fun c => ⟨"CO", c, 0⟩
  else if co = [] ∧ svc.billed > svc.allowed ∧ svc.allowed > 0 then
    let writeoff := svc.billed - svc.allowed
    if writeoff > 0 then [⟨"CO", "45", writeoff⟩] else []
  else if co = [] ∧ svc.paid = 0 ∧ svc.billed > 0 then
    [⟨"CO", "45", svc.billed⟩]
  else []

/-- The PR-group CAS entries emitted for one service line (lines 687–701). -/
def casPR (svc : ServiceLine) : List Adjustment :=
  (if svc.deductible > 0 then [⟨"PR", "1", svc.deductible⟩] else []) ++
  (if coinsurance svc > 0 then [⟨"PR", "2", coinsurance svc⟩] else []) ++
  (if svc.copay > 0 then [⟨"PR", "3", svc.copay⟩] else [])

/-- All CAS entries emitted for one service line, in emission order. -/
def casLine (svc : ServiceLine) (mapping : List (String × CarcEntry)) : List Adjustment :=
  casCO svc mapping ++ casPR svc

/-- All CAS entries of the generated 835 claim: `generate_835` emits them
per service line, in order. -/
def claimAdjustments (eob : Eob) (mapping : List (String × CarcEntry)) : List Adjustment :=
  eob.service_lines.flatMap fun svc => casLine svc mapping

/-- Sum of the amounts of a list of adjustments. -/
def adjSum (l : List Adjustment) : Int := (l.map Adjustment.amount).sum

/-- One row of `ConversionTracker.carc_mapping_usage` (lines 770–779). -/
structure UsageInfo where
  original_description : String
  mapped_code : String
  mapped_description : String
  count : Nat
deriving DecidableEq, Repr

/-- Increment the count of the first binding of `key`. -/
def bumpCount : List (String × UsageInfo) → String → List (String × UsageInfo)
  | [], _ => []
  | (k, v) :: rest, key =>
    if k == key then (k, { v with count := v.count + 1 }) :: rest
    else (k, v) :: bumpCount rest key

/-- `ConversionTracker.record_carc_mapping` (lines 770–779): insert the code
with count 0 if absent, then increment its count. -/
def record_carc_mapping (usage : List (String × UsageInfo))
    (orig origDesc mapped mappedDesc : String) : List (String × UsageInfo) :=
  let usage :=
    if (alookup usage orig).isSome then usage
    else usage ++ [(orig, ⟨origDesc, mapped, mappedDesc, 0⟩)]
  bumpCount usage orig

/-- The body of the inner `for raw_code in svc["adj_codes"]` loop of
`process_practice_type` (lines 1023–1033), restricted to its effect on
`carc_mapping_usage`: the code is mapped and recorded only when the mapped
code differs from the raw code.  `descs` is the EOB's
`adjustment_reason_codes` dict. -/
def auditStepCode (mapping : List (String × CarcEntry)) (descs : List (String × String))
    (usage : List (String × UsageInfo)) (rawCode : String) : List (String × UsageInfo) :=
  let mapped := map_carc_code rawCode mapping
  if mapped != rawCode then
    record_carc_mapping usage rawCode (mget descs rawCode "") mapped
      (mget STANDARD_CARC_DESCRIPTIONS mapped "")
  else usage

/-- The outer `for svc in eob["service_lines"]` loop of
`process_practice_type` (lines 1022–1033), restricted to its effect on
`carc_mapping_usage`. -/
def auditStepLine (mapping : List (String × CarcEntry)) (descs : List (String × String))
    (usage : List (String × UsageInfo)) (svc : ServiceLine) : List (String × UsageInfo) :=
  svc.adj_codes.foldl (auditStepCode mapping descs) usage

/-- The CARC-audit accumulation of `process_practice_type`
(lines 1017–1033) over all service lines of one EOB, starting from an
empty `carc_mapping_usage`. -/
def collectCarcAudit (lines : List ServiceLine) (mapping : List (String × CarcEntry))
    (descs : List (String × String)) : List (String × UsageInfo) :=
  lines.foldl (auditStepLine mapping descs) []

end EobTo835

/-!
## `scripts/realtime_eligibility.py` — the EDI 271 parser

The walker's only ambient input besides the file text is the current wall
clock read by `datetime.now()` inside `_finalize_patient`; it is injected
here as the parameter `now`, encoded as described in the module header.
Monetary amounts parsed with `float(...)` are exact decimals (`Py.Dec`).
-/

namespace Eligibility

/-- `SERVICE_TYPE_CODES` (lines 76–149). -/
def SERVICE_TYPE_CODES : List (String × String) :=
  [("1", "Medical Care"), ("2", "Surgical"), ("3", "Consultation"),
   ("4", "Diagnostic X-Ray"), ("5", "Diagnostic Lab"), ("6", "Radiation Therapy"),
   ("7", "Anesthesia"), ("8", "Surgical Assistance"), ("12", "Durable Medical Equipment"),
   ("14", "Renal Supplies In The Home"), ("23", "Diagnostic Dental"),
   ("24", "Periodontics"), ("25", "Prosthodontics"), ("26", "Oral Surgery"),
   ("27", "Orthodontics"), ("30", "Health Benefit Plan Coverage"),
   ("33", "Chiropractic"), ("35", "Dental Care"), ("37", "Optometry"),
   ("38", "Eye Exam"), ("41", "Optometry/Vision"), ("42", "Home Health Care"),
   ("45", "Hospice"), ("47", "Hospital"), ("48", "Hospital Inpatient"),
   ("50", "Hospital Outpatient"), ("51", "Hospital Emergency"),
   ("52", "Hospital Emergency Medical"), ("53", "Hospital Ambulatory Surgical"),
   ("54", "Long Term Care"), ("56", "Medically Related Transportation"),
   ("60", "General Benefits"), ("61", "In-vitro Fertilization"),
   ("62", "MRI/CAT Scan"), ("63", "Donor Procedures"), ("65", "Newborn Care"),
   ("67", "Smoking Cessation"), ("68", "Well Baby Care"), ("69", "Maternity"),
   ("70", "Transplant"), ("71", "Audiology Exam"), ("72", "Inhalation Therapy"),
   ("73", "Diagnostic Medical"), ("76", "Dialysis"), ("82", "Chemotherapy"),
   ("83", "Radiation Therapy (Duplicate)"), ("84", "Physical Therapy"),
   ("85", "Occupational Therapy"), ("86", "Speech Therapy"), ("88", "Pharmacy"),
   ("89", "Free Standing Prescription Drug"), ("90", "Mail Order Prescription Drug"),
   ("91", "Brand Name Prescription Drug"), ("92", "Generic Prescription Drug"),
   ("93", "Podiatry"), ("94", "Podiatry - Office Visits"),
   ("96", "Professional (Physician) Visit - Office"),
   ("98", "Professional (Physician) Visit - Inpatient"),
   ("99", "Professional (Physician) Visit - Outpatient"),
   ("A4", "Psychiatric"), ("A6", "Psychotherapy"), ("A7", "Psychiatric - Inpatient"),
   ("A8", "Psychiatric - Outpatient"), ("AB", "Optometry"), ("AE", "Physical Medicine"),
   ("AF", "Speech Therapy (Duplicate)"), ("AG", "Skilled Nursing Care"),
   ("AJ", "Alcoholism"), ("AK", "Drug Addiction"), ("AL", "Vision"),
   ("BB", "Partial Hospitalization (Psychiatric)"), ("UC", "Urgent Care")]

/-- `ELIGIBILITY_BENEFIT_CODES` (lines 152–185). -/
def ELIGIBILITY_BENEFIT_CODES : List (String × String) :=
  [("1", "Active"), ("2", "Active - Full Risk Capitation"),
   ("3", "Active - Services Capitated"),
   ("4", "Active - Services Capitated to Primary Care Physician"),
   ("5", "Active - Pending Investigation"), ("6", "Inactive"),
   ("7", "Inactive - Pending Eligibility Update"),
   ("8", "Inactive - Pending Investigation"), ("A", "Co-Insurance"),
   ("B", "Co-Payment"), ("C", "Deductible"), ("D", "Benefit Description"),
   ("E", "Exclusions"), ("F", "Limitations"), ("G", "Out of Pocket (Stop Loss)"),
   ("H", "Unlimited"), ("I", "Non-Covered"), ("J", "Cost Containment"),
   ("K", "Reserve"), ("L", "Primary Care Provider"),
   ("M", "Pre-existing Condition"), ("MC", "Managed Care Coordinator"),
   ("N", "Services Restricted to Following Provider"),
   ("O", "Not Deemed a Medical Necessity"), ("P", "Benefit Disclaimer"),
   ("Q", "Second Surgical Opinion Required"), ("R", "Other or Additional Payor"),
   ("S", "Prior Year(s) History"), ("T", "Card(s) Reported Lost/Stolen"),
   ("U", "Contact Following Entity for Information"), ("V", "Cannot Process"),
   ("W", "Other Source of Data"), ("X", "Health Care Facility"),
   ("Y", "Spend Down"), ("CB", "Coverage Basis")]

/-- `INSURANCE_TYPE_MAP` (lines 188–211). -/
def INSURANCE_TYPE_MAP : List (String × String) :=
  [("12", "Medicare Secondary Working Aged Beneficiary"),
   ("13", "Medicare Secondary End-Stage Renal Disease"),
   ("14", "Medicare Secondary, No-fault Insurance"),
   ("15", "Medicare Secondary Workers Compensation"),
   ("16", "Medicare Secondary Public Health Service"),
   ("41", "Medicare Secondary Black Lung"),
   ("42", "Medicare Secondary Veterans Administration"),
   ("43", "Medicare Secondary Disabled Beneficiary Under 65"),
   ("47", "Medicare Secondary, Other Liability Insurance"),
   ("AP", "Auto Insurance Policy"), ("C1", "Commercial"),
   ("CO", "Consolidated Omnibus Budget Reconciliation Act (COBRA)"),
   ("GP", "Group Policy"), ("HM", "Health Maintenance Organization (HMO)"),
   ("HN", "Health Maintenance Organization (HMO) - Medicare Risk"),
   ("IP", "Individual Policy"), ("MA", "Medicare Part A"),
   ("MB", "Medicare Part B"), ("MC", "Medicaid"), ("MP", "Medicare Primary"),
   ("OT", "Other"), ("PP", "Preferred Provider Organization (PPO)"),
   ("SP", "Supplemental Policy")]

/-- `COVERAGE_LEVEL_MAP` (lines 214–224). -/
def COVERAGE_LEVEL_MAP : List (String × String) :=
  [("CHD", "Children Only"), ("DEP", "Dependents Only"),
   ("ECH", "Employee and Children"), ("EMP", "Employee Only"),
   ("ESP", "Employee and Spouse"), ("FAM", "Family"), ("IND", "Individual"),
   ("SPC", "Spouse and Children"), ("SPO", "Spouse Only")]

/-- `TIME_PERIOD_MAP` (lines 227–246). -/
def TIME_PERIOD_MAP : List (String × String) :=
  [("6", "Hour"), ("7", "Day"), ("13", "24 Hours"), ("21", "Years"),
   ("22", "Service Year"), ("23", "Calendar Year"), ("24", "Year to Date"),
   ("25", "Contract"), ("26", "Episode"), ("27", "Visit"), ("28", "Outlier"),
   ("29", "Remaining"), ("30", "Exceeded"), ("31", "Not Exceeded"),
   ("32", "Lifetime"), ("33", "Lifetime Remaining"), ("34", "Month"),
   ("35", "Week"), ("36", "Admission")]

/-- `RELATIONSHIP_MAP` (lines 249–260). -/
def RELATIONSHIP_MAP : List (String × String) :=
  [("18", "Self"), ("01", "Spouse"), ("19", "Child"), ("20", "Employee"),
   ("21", "Unknown"), ("34", "Other Adult"), ("39", "Organ Donor"),
   ("40", "Cadaver Donor"), ("53", "Life Partner"), ("G8", "Other Relationship")]

/-- `PLAN_TYPE_SHORT` (lines 263–268). -/
def PLAN_TYPE_SHORT : List (String × String) :=
  [("HM", "HMO"), ("HN", "HMO-Medicare"), ("PP", "PPO"), ("MA", "Medicare A"),
   ("MB", "Medicare B"), ("MP", "Medicare"), ("MC", "Medicaid"),
   ("C1", "Commercial"), ("GP", "Group"), ("IP", "Individual"),
   ("CO", "COBRA"), ("SP", "Supplement"), ("OT", "Other")]

/-- One entry of a patient's `services` list (lines 961–969). -/
structure ServiceRec where
  service_type_code : String
  service_type : String
  benefit_type : String
  coverage_level : String
  amount : Py.Dec
  time_period : String
  in_network : Bool
deriving DecidableEq, Repr

/-- One entry of a patient's `preauth_services` list (lines 953–957). -/
structure PreauthRec where
  service_type_code : String
  service_type : String
  coverage_level : String
deriving DecidableEq, Repr

/-- A patient-eligibility record (`_new_patient_record`, lines 976–1024).
The three `*_formatted` keys that `_finalize_patient` may add to the dict
are modelled as extra fields that default to `""`. -/
structure Patient where
  source_file : String
  patient_name : String
  patient_first : String
  patient_last : String
  member_id : String
  dob : String
  gender : String
  address : String
  city : String
  state : String
  zip : String
  relationship : String
  coverage_status : String
  plan_type : String
  plan_type_code : String
  payer_name : String
  payer_id : String
  group_number : String
  group_name : String
  effective_date : String
  term_date : String
  provider_npi : String
  provider_name : String
  provider_taxonomy : String
  network_status : String
  participating : String
  trace_number : String
  deductible : Py.Dec
  deductible_remaining : Py.Dec
  family_deductible : Py.Dec
  family_deductible_remaining : Py.Dec
  copay : Py.Dec
  copays : List (String × Py.Dec)
  copays_oon : List (String × Py.Dec)
  coinsurance_pct : Int
  coinsurance_pct_oon : Int
  coinsurance_in : List (String × Int)
  coinsurance_oon : List (String × Int)
  oop_max : Py.Dec
  oop_remaining : Py.Dec
  lifetime_max : Py.Dec
  services : List ServiceRec
  preauth_services : List PreauthRec
  preauth_messages : List String
  messages : List String
  dob_formatted : String
  effective_date_formatted : String
  term_date_formatted : String
deriving DecidableEq, Repr

/-- `os.path.basename` on the POSIX paths used by the scripts. -/
def basename (p : String) : String := (Py.split p '/').getLastD ""

/-- `_new_patient_record` (lines 976–1024). -/
def newPatient (fp : String) : Patient :=
  { source_file := basename fp
    patient_name := "", patient_first := "", patient_last := "", member_id := ""
    dob := "", gender := "", address := "", city := "", state := "", zip := ""
    relationship := "", coverage_status := "Unknown", plan_type := ""
    plan_type_code := "", payer_name := "", payer_id := "", group_number := ""
    group_name := "", effective_date := "", term_date := "", provider_npi := ""
    provider_name := "", provider_taxonomy := "", network_status := "Unknown"
    participating := "Unknown", trace_number := ""
    deductible := Py.Dec.zero, deductible_remaining := Py.Dec.zero
    family_deductible := Py.Dec.zero, family_deductible_remaining := Py.Dec.zero
    copay := Py.Dec.zero, copays := [], copays_oon := []
    coinsurance_pct := 0, coinsurance_pct_oon := 0
    coinsurance_in := [], coinsurance_oon := []
    oop_max := Py.Dec.zero, oop_remaining := Py.Dec.zero
    lifetime_max := Py.Dec.zero
    services := [], preauth_services := [], preauth_messages := [], messages := []
    dob_formatted := "", effective_date_formatted := "", term_date_formatted := "" }

/-- `EDI271Parser._elem` (lines 1068–1073): the element at `idx`, stripped,
or `""` when past the end of the segment. -/
def elem (seg : List String) (idx : Nat) : String :=
  match seg.get? idx with
  | some v => Py.strip v
  | none => ""

/-- `EDI271Parser._tokenize` (lines 658–666). -/
def tokenize (raw : String) : List (List String) :=
  let cleaned := Py.removeChar '\x0d' (Py.removeChar '\n' raw)
  (((Py.split cleaned '~').map Py.strip).filter fun s => s != "").map
    fun segStr => Py.split segStr '*'

/-- The coverage-status tracking block of `_parse_eb_segment`
(lines 881–891). -/
def ebStatusPart (eb01 eb05 : String) (p : Patient) : Patient :=
  if eb01 == "1" || eb01 == "2" || eb01 == "3" || eb01 == "4" || eb01 == "5" then
    let p := { p with coverage_status := "Active" }
    if eb05 != "" then
      { p with plan_type_code := eb05
               plan_type := mget PLAN_TYPE_SHORT eb05 (mget INSURANCE_TYPE_MAP eb05 eb05) }
    else p
  else if eb01 == "6" || eb01 == "7" || eb01 == "8" then
    if p.coverage_status != "Active" then { p with coverage_status := "Inactive" } else p
  else p

/-- The deductible/copay/coinsurance/out-of-pocket/limitations/pre-auth
chain of `_parse_eb_segment` (lines 893–957). -/
def ebBenefitPart (eb01 eb02 eb03 eb06 eb07 coverage_level : String)
    (amount : Py.Dec) (is_oon : Bool) (p : Patient) : Patient :=
  if eb01 == "C" then
    if eb02 == "IND" then
      if eb06 == "29" then { p with deductible_remaining := amount }
      else if eb06 == "23" || eb06 == "24" || eb06 == "25" then
        { p with deductible := amount }
      else p
    else if eb02 == "FAM" then
      if eb06 == "29" then { p with family_deductible_remaining := amount }
      else if eb06 == "23" || eb06 == "24" || eb06 == "25" then
        { p with family_deductible := amount }
      else p
    else p
  else if eb01 == "B" then
    if amount.isPos then
      let svc_label := if eb03 != "" then eb03 else "general"
      let copay_key := "copay_" ++ svc_label
      if ¬is_oon then
        let p := { p with copays := dset p.copays copay_key amount }
        if svc_label == "96" || svc_label == "UC" || svc_label == "general" then
          { p with copay := amount }
        else p
      else { p with copays_oon := dset p.copays_oon copay_key amount }
    else p
  else if eb01 == "A" then
    let pct : Int :=
      if eb07 != "" then
        match Py.parseDec? eb07 with
        | some d => d.trunc
        | none => 0
      else 0
    if pct > 0 then
      if is_oon then
        let p := { p with coinsurance_oon :=
                     (dset p.coinsurance_oon (if eb03 != "" then eb03 else "general") pct) }
        if p.coinsurance_pct_oon == 0 then { p with coinsurance_pct_oon := pct } else p
      else
        let p := { p with coinsurance_in :=
                     (dset p.coinsurance_in (if eb03 != "" then eb03 else "general") pct) }
        if p.coinsurance_pct == 0 then { p with coinsurance_pct := pct } else p
    else p
  else if eb01 == "G" then
    if eb02 == "IND" then
      if eb06 == "29" then { p with oop_remaining := amount }
      else if eb06 == "23" || eb06 == "24" || eb06 == "25" then
        { p with oop_max := amount }
      else p
    else p
  else if eb01 == "F" then
    if eb06 == "32" then { p with lifetime_max := amount } else p
  else if eb01 == "J" then
    let svc := if eb03 != "" then mget SERVICE_TYPE_CODES eb03 eb03 else "General"
    { p with preauth_services := p.preauth_services ++ [⟨eb03, svc, coverage_level⟩] }
  else p

/-- The services-covered tracking block of `_parse_eb_segment`
(lines 959–970). -/
def ebServicesPart (eb01 eb03 service_type benefit_type coverage_level time_period : String)
    (amount : Py.Dec) (is_oon : Bool) (p : Patient) : Patient :=
  if eb03 != "" && eb01 != "J" then
    { p with services := p.services ++
        [⟨eb03, service_type, benefit_type, coverage_level, amount, time_period, ¬is_oon⟩] }
  else p

/-- `EDI271Parser._parse_eb_segment` (lines 836–970). -/
def parseEB (seg : List String) (p : Patient) : Patient :=
  let eb01 := elem seg 1
  let eb02 := elem seg 2
  let eb03 := elem seg 3
  let eb05 := elem seg 5
  let eb06 := elem seg 6
  let eb07 := elem seg 7
  let eb12 := if seg.length > 11 then elem seg 11 else ""
  let coverage_level := mget COVERAGE_LEVEL_MAP eb02 eb02
  let service_type := if eb03 != "" then mget SERVICE_TYPE_CODES eb03 eb03 else "General"
  let time_period := mget TIME_PERIOD_MAP eb06 eb06
  let is_oon := eb12 == "N"
  let benefit_type := mget ELIGIBILITY_BENEFIT_CODES eb01 eb01
  let amount : Py.Dec :=
    if eb07 != "" then
      match Py.parseDec? eb07 with
      | some d => d
      | none => Py.Dec.zero
    else Py.Dec.zero
  let p := ebStatusPart eb01 eb05 p
  let p := ebBenefitPart eb01 eb02 eb03 eb06 eb07 coverage_level amount is_oon p
  ebServicesPart eb01 eb03 service_type benefit_type coverage_level time_period amount is_oon p

/-- Leap-year-aware month lengths, as validated by
`datetime.strptime(val, "%Y%m%d")`. -/
def daysInMonth (y m : Nat) : Nat :=
  if m == 2 then
    if (y % 4 == 0 && y % 100 != 0) || y % 400 == 0 then 29 else 28
  else if m == 4 || m == 6 || m == 9 || m == 11 then 30 else 31

/-- A character of the regex class `[1-9]`. -/
def digit19 (c : Char) : Bool := '1' ≤ c && c ≤ '9'

/-- The two-character alternatives `3[01]|[12]\d|0[1-9]` of the `%d`
pattern of CPython `strptime`, in the regex engine's alternation order. -/
def dayTwo? (a b : Char) : Option Nat :=
  if a == '3' && (b == '0' || b == '1') then some (30 + (b.toNat - 48))
  else if (a == '1' || a == '2') && b.isDigit then
    some ((a.toNat - 48) * 10 + (b.toNat - 48))
  else if a == '0' && digit19 b then some (b.toNat - 48)
  else none

/-- The `%d` pattern `3[01]|[12]\d|0[1-9]|[1-9]` matched against the whole
remainder (the trailing-garbage check of `_strptime` makes a partial match
fail). -/
def dayFull? : List Char → Option Nat
  | [a] => if digit19 a then some (a.toNat - 48) else none
  | [a, b] => dayTwo? a b
  | _ => none

/-- The two-character alternatives `1[0-2]|0[1-9]` of the `%m` pattern of
CPython `strptime`. -/
def monthTwo? (a b : Char) : Option Nat :=
  if a == '1' && (b == '0' || b == '1' || b == '2') then some (10 + (b.toNat - 48))
  else if a == '0' && digit19 b then some (b.toNat - 48)
  else none

/-- The `%m%d` tail of the `strptime` pattern matched against the post-year
remainder, with the regex engine's backtracking order: a two-character
month first, then a one-character month (`[1-9]`) with the day pattern on
the rest. -/
def monthDay? (r : List Char) : Option (Nat × Nat) :=
  match r with
  | a :: b :: rest =>
      let one : Option (Nat × Nat) :=
        if digit19 a then (dayFull? (b :: rest)).map (fun d => (a.toNat - 48, d))
        else none
      match monthTwo? a b with
      | some m =>
          match dayFull? rest with
          | some d => some (m, d)
          | none => one
      | none => one
  | _ => none

/-- `datetime.strptime(s, "%Y%m%d")`: four year digits, then the month and
day patterns matched with backtracking over the entire remainder — so 6-,
7- and 8-digit strings can all parse (e.g. "199911" is 1999-01-01 and
"1999911" is 1999-09-11) — followed by calendar validation; `none` models
`ValueError`. -/
def parseYMD? (s : String) : Option (Nat × Nat × Nat) :=
  let l := s.data
  if Py.allDigits (l.take 4) && decide (4 ≤ l.length) then
    let y := Py.digitsVal (l.take 4)
    match monthDay? (l.drop 4) with
    | some (m, d) =>
        if 1 ≤ y && d ≤ daysInMonth y m then some (y, m, d) else none
    | none => none
  else none

/-- Encoding of a datetime instant as a natural number, strictly monotone
in (year, month, day, second-of-day). -/
def encodeDT (y m d secs : Nat) : Nat := ((y * 13 + m) * 32 + d) * 86400 + secs

/-- The condition under which `_finalize_patient` may mark a record
Terminated: a nonempty `term_date` that parses as `%Y%m%d` and lies strictly
before the injected current instant `now`. -/
def validPastTerm (term : String) (now : Nat) : Bool :=
  term != "" &&
    match parseYMD? term with
    | some (y, m, d) => decide (encodeDT y m d 0 < now)
    | none => false

/-- `MM/DD/YYYY` display formatting of an 8-character date
(`_finalize_patient`, lines 1058–1060). -/
def fmtMDY (v : String) : String :=
  String.mk ((v.data.drop 4).take 2) ++ "/" ++ String.mk ((v.data.drop 6).take 2) ++
    "/" ++ String.mk (v.data.take 4)

/-- The termination block of `_finalize_patient` (lines 1031–1039), with
the `datetime.now()` read injected as `now`. -/
def termPart (now : Nat) (p : Patient) : Patient :=
  if p.term_date != "" then
    match parseYMD? p.term_date with
    | some (y, m, d) =>
        if encodeDT y m d 0 < now then
          if p.coverage_status == "Unknown" || p.coverage_status == "Inactive" then
            { p with coverage_status := "Terminated" }
          else p
        else p
    | none => p
  else p

/-- The copay-defaulting block of `_finalize_patient` (lines 1041–1051). -/
def copayPart (p : Patient) : Patient :=
  if p.copay.isZero && ¬p.copays.isEmpty then
    let p :=
      match (["copay_96", "copay_UC", "copay_30"].filterMap
               fun k => alookup p.copays k).head? with
      | some v => { p with copay := v }
      | none => p
    if p.copay.isZero then
      match p.copays.head? with
      | some kv => { p with copay := kv.2 }
      | none => p
    else p
  else p

/-- The display-date block of `_finalize_patient` (lines 1053–1062). -/
def fmtPart (p : Patient) : Patient :=
  let p :=
    if p.dob != "" && p.dob.length == 8 then { p with dob_formatted := fmtMDY p.dob }
    else p
  let p :=
    if p.effective_date != "" && p.effective_date.length == 8 then
      { p with effective_date_formatted := fmtMDY p.effective_date }
    else p
  if p.term_date != "" && p.term_date.length == 8 then
    { p with term_date_formatted := fmtMDY p.term_date }
  else p

/-- `EDI271Parser._finalize_patient` (lines 1026–1062), with the
`datetime.now()` read injected as `now`. -/
def finalizePatient (now : Nat) (p : Patient) : Patient :=
  fmtPart (copayPart (termPart now p))

/-- The information-source (payer) hierarchical context. -/
structure PayerCtx where
  name : Option String
  payer_id : Option String
deriving Repr

/-- The information-receiver (provider) hierarchical context. -/
structure ProviderCtx where
  name : Option String
  npi : Option String
  network_status : Option String
  participating : Option String
  taxonomy : Option String
deriving Repr

/-- The mutable locals of `_walk_segments` (lines 672–830). -/
structure WalkState where
  patients : List Patient
  payer : PayerCtx
  provider : ProviderCtx
  current : Option Patient
  context : String
deriving Repr

def initState : WalkState :=
  { patients := [], payer := ⟨none, none⟩, provider := ⟨none, none, none, none, none⟩
    current := none, context := "envelope" }

/-- The fields a fresh subscriber record inherits from the open payer and
provider contexts (lines 716–723). -/
def inheritCtx (p : Patient) (payer : PayerCtx) (prov : ProviderCtx) : Patient :=
  { p with payer_name := payer.name.getD ""
           payer_id := payer.payer_id.getD ""
           provider_npi := prov.npi.getD ""
           provider_name := prov.name.getD ""
           network_status := prov.network_status.getD "Unknown"
           participating := prov.participating.getD "Unknown"
           provider_taxonomy := prov.taxonomy.getD "" }

/-- The HL (hierarchical level) routing of `_walk_segments`
(lines 702–723). -/
def hlHandle (fp : String) (st : WalkState) (seg : List String) : WalkState :=
  let hlLevel := elem seg 3
  if hlLevel == "20" then { st with context := "payer", payer := ⟨none, none⟩ }
  else if hlLevel == "21" then
    { st with context := "provider", provider := ⟨none, none, none, none, none⟩ }
  else if hlLevel == "22" then
    { st with patients := st.patients ++ st.current.toList
              context := "subscriber"
              current := some (inheritCtx (newPatient fp) st.payer st.provider) }
  else st

/-- The NM1 (name) segment handling of `_walk_segments` (lines 726–743). -/
def nm1Handle (st : WalkState) (seg : List String) : WalkState :=
  let entity := elem seg 1
  if st.context == "payer" && entity == "PR" then
    { st with payer := ⟨some (elem seg 3), some (elem seg 9)⟩ }
  else if st.context == "provider" && entity == "1P" then
    { st with provider :=
        { st.provider with
            name := some (Py.strip (elem seg 4 ++ " " ++ elem seg 3))
            npi := some (elem seg 9) } }
  else if st.context == "subscriber" && entity == "IL" && st.current.isSome then
    match st.current with
    | some p =>
        { st with current :=
            (some { p with patient_last := elem seg 3
                           patient_first := elem seg 4
                           patient_name := Py.strip (elem seg 4 ++ " " ++ elem seg 3)
                           member_id := elem seg 9 }) }
    | none => st
  else st

/-- The DMG (demographics) segment handling (lines 745–747). -/
def dmgHandle (st : WalkState) (seg : List String) : WalkState :=
  if st.context == "subscriber" then
    match st.current with
    | some p => { st with current := some { p with dob := elem seg 2, gender := elem seg 3 } }
    | none => st
  else st

/-- The N3 (address) segment handling (lines 750–751). -/
def n3Handle (st : WalkState) (seg : List String) : WalkState :=
  if st.context == "subscriber" then
    match st.current with
    | some p => { st with current := some { p with address := elem seg 1 } }
    | none => st
  else st

/-- The N4 (city/state/zip) segment handling (lines 753–756). -/
def n4Handle (st : WalkState) (seg : List String) : WalkState :=
  if st.context == "subscriber" then
    match st.current with
    | some p =>
        { st with current :=
            (some { p with city := elem seg 1, state := elem seg 2, zip := elem seg 3 }) }
    | none => st
  else st

/-- The INS (relationship) segment handling (lines 759–761). -/
def insHandle (st : WalkState) (seg : List String) : WalkState :=
  if st.context == "subscriber" then
    match st.current with
    | some p =>
        let relCode := elem seg 2
        { st with current :=
            (some { p with relationship := mget RELATIONSHIP_MAP relCode relCode }) }
    | none => st
  else st

/-- The TRN (trace) segment handling (lines 764–765). -/
def trnHandle (st : WalkState) (seg : List String) : WalkState :=
  if st.context == "subscriber" then
    match st.current with
    | some p => { st with current := some { p with trace_number := elem seg 2 } }
    | none => st
  else st

/-- The DTP (date/time) segment handling (lines 768–774). -/
def dtpHandle (st : WalkState) (seg : List String) : WalkState :=
  if st.context == "subscriber" then
    match st.current with
    | some p =>
        let qualifier := elem seg 1
        let dateVal := elem seg 3
        if qualifier == "356" then
          { st with current := some { p with effective_date := dateVal } }
        else if qualifier == "357" then
          { st with current := some { p with term_date := dateVal } }
        else st
    | none => st
  else st

/-- The REF (reference) segment handling (lines 777–798); note the source
gates the whole branch on an open patient record, even for the provider
context. -/
def refHandle (st : WalkState) (seg : List String) : WalkState :=
  if st.current.isSome then
    let refQual := elem seg 1
    let refVal := elem seg 2
    if st.context == "provider" then
      if refQual == "EO" then
        { st with provider := { st.provider with
            network_status := some (if refVal == "IN" then "In-Network" else "Out-of-Network") } }
      else if refQual == "9K" then
        { st with provider := { st.provider with
            participating := some (if refVal == "Y" then "Yes" else "No") } }
      else st
    else if st.context == "subscriber" then
      match st.current with
      | some p =>
          if refQual == "18" then
            { st with current := some { p with group_number := refVal } }
          else if refQual == "1L" then
            { st with current := some { p with group_name := refVal } }
          else if refQual == "6P" then
            { st with current :=
                (some { p with plan_type_code := refVal
                               plan_type := mget PLAN_TYPE_SHORT refVal
                                 (mget INSURANCE_TYPE_MAP refVal refVal) }) }
          else st
      | none => st
    else st
  else st

/-- The PRV (provider taxonomy) segment handling (lines 801–802). -/
def prvHandle (st : WalkState) (seg : List String) : WalkState :=
  if st.context == "provider" then
    { st with provider := { st.provider with taxonomy := some (elem seg 3) } }
  else st

/-- The EB segment handling (lines 805–806). -/
def ebHandle (st : WalkState) (seg : List String) : WalkState :=
  match st.current with
  | some p => { st with current := some (parseEB seg p) }
  | none => st

/-- The MSG segment handling (lines 809–814). -/
def msgHandle (st : WalkState) (seg : List String) : WalkState :=
  match st.current with
  | some p =>
      let msgText := elem seg 1
      if msgText != "" then
        let p := { p with messages := p.messages ++ [msgText] }
        let p :=
          if Py.hasSub (Py.upper msgText) "PRE-AUTHORIZATION" ||
             Py.hasSub (Py.upper msgText) "PREAUTH" then
            { p with preauth_messages := p.preauth_messages ++ [msgText] }
          else p
        { st with current := some p }
      else st
  | none => st

/-- One iteration of the segment loop of `_walk_segments`
(lines 684–820): dispatch on the segment tag. -/
def step (fp : String) (st : WalkState) (seg : List String) : WalkState :=
  let segId := seg.headD ""
  if segId == "ISA" || segId == "GS" || segId == "ST" || segId == "BHT" then st
  else if segId == "HL" then hlHandle fp st seg
  else if segId == "NM1" then nm1Handle st seg
  else if segId == "DMG" then dmgHandle st seg
  else if segId == "N3" then n3Handle st seg
  else if segId == "N4" then n4Handle st seg
  else if segId == "INS" then insHandle st seg
  else if segId == "TRN" then trnHandle st seg
  else if segId == "DTP" then dtpHandle st seg
  else if segId == "REF" then refHandle st seg
  else if segId == "PRV" then prvHandle st seg
  else if segId == "EB" then ebHandle st seg
  else if segId == "MSG" then msgHandle st seg
  else if segId == "SE" || segId == "GE" || segId == "IEA" then st
  else st


/-- `EDI271Parser._walk_segments` (lines 672–830): fold the segment loop,
flush the last open record, then finalize every record in place. -/
def walkSegments (fp : String) (now : Nat) (segs : List (List String)) : List Patient :=
  let st := segs.foldl (step fp) initState
  (st.patients ++ st.current.toList).map (finalizePatient now)

/-- `EDI271Parser.parse_file` (lines 644–652) on the file's text, with the
wall clock injected. -/
def parseFileRun (raw fp : String) (now : Nat) : List Patient :=
  walkSegments fp now (tokenize raw)

/-- A segment that opens a new subscriber loop: an `HL` segment whose
level code (element 3) is `"22"`. -/
def isHL22 (seg : List String) : Bool :=
  seg.headD "" == "HL" && elem seg 3 == "22"

/-- An EB segment whose EB01 is an active-coverage code. -/
def isActiveEB (seg : List String) : Bool :=
  let eb01 := elem seg 1
  eb01 == "1" || eb01 == "2" || eb01 == "3" || eb01 == "4" || eb01 == "5"

/-- An EB segment whose EB01 is an inactive-coverage code. -/
def isInactiveEB (seg : List String) : Bool :=
  let eb01 := elem seg 1
  eb01 == "6" || eb01 == "7" || eb01 == "8"

end Eligibility

/-!
## `scripts/etl_engine.py` — HL7 accessors and patient deduplication

A patient record handed to `deduplicate_patients` is a Python dict of
string fields; it is embedded as an association list.  The source mutates
the first-seen record in place on every collision, and the deduplicated
output list holds references to those records, so the embedding keeps the
output list and a map from key to output index and applies merges to the
indexed output slot.
-/

namespace EtlEngine

/-- A parsed patient record: a dict of string fields. -/
abbrev PatientD : Type := List (String × String)

/-- `get_component` (lines 148–158): component `index` of a field split on
`^`, stripped; empty string for an empty field or a missing component. -/
def get_component (field : String) (index : Nat) : String :=
  if field == "" then ""
  else
    match (Py.split field '^').get? index with
    | some c => Py.strip c
    | none => ""

/-- Python `patient.get(k, "")`. -/
def pget (p : PatientD) (k : String) : String := mget p k ""

/-- `build_dedup_key` (lines 737–742). -/
def build_dedup_key (p : PatientD) : String :=
  Py.upper (Py.strip (pget p "last_name")) ++ "|" ++
    Py.upper (Py.strip (pget p "first_name")) ++ "|" ++
    Py.strip (pget p "dob")

/-- One iteration of the merge loop of `deduplicate_patients`
(lines 775–777): the duplicate's field is copied when it is missing or
falsy (empty) on the first-seen record. -/
def fillField (o : PatientD) (kv : String × String) : PatientD :=
  let filled : Bool :=
    match alookup o kv.1 with
    | none => true
    | some v => v == ""
  if filled then dset o kv.1 kv.2 else o

/-- The merge loop of `deduplicate_patients` (lines 775–777): every field of
the duplicate that is missing or empty on the first-seen record is copied
from the duplicate. -/
def mergeFill (orig dup : PatientD) : PatientD :=
  dup.foldl fillField orig

/-- The records that `deduplicate_patients` refuses to deduplicate: those
whose key is the all-empty `"||"`. -/
def hasEmptyKey (r : PatientD) : Bool := build_dedup_key r == "||"

/-- One row of `duplicate_details` (lines 767–773). -/
structure DupDetail where
  patient_key : String
  duplicate_system : String
  original_system : String
  patient_id_dup : String
  patient_id_orig : String
deriving DecidableEq, Repr

/-- State of the `for patient in patient_records` loop of
`deduplicate_patients`: the growing output list, the key-to-output-index
map standing for the `seen` dict of references, the counter and the audit
rows. -/
structure DedupState where
  out : List PatientD
  seen : List (String × Nat)
  count : Nat
  details : List DupDetail

/-- One iteration of the loop of `deduplicate_patients` (lines 758–780). -/
def dedupStep (st : DedupState) (p : PatientD) : DedupState :=
  let key := build_dedup_key p
  if key == "" || key == "||" then { st with out := st.out ++ [p] }
  else
    match alookup st.seen key with
    | some idx =>
        let orig := st.out.getD idx []
        { st with
            count := st.count + 1
            details := st.details ++
              [⟨key, pget p "source_system", pget orig "source_system",
                pget p "patient_id", pget orig "patient_id"⟩]
            out := st.out.set idx (mergeFill orig p) }
    | none =>
        { st with seen := st.seen ++ [(key, st.out.length)], out := st.out ++ [p] }

/-- `deduplicate_patients` (lines 745–782): returns
`(deduplicated, duplicate_count, duplicate_details)`. -/
def deduplicate_patients (records : List PatientD) :
    List PatientD × Nat × List DupDetail :=
  let st := records.foldl dedupStep ⟨[], [], 0, []⟩
  (st.out, st.count, st.details)

/-- Invariant of the dedup loop state: every index stored in `seen` points
at a record of the output list whose key is not the all-empty key.  (In the
source, `seen` holds references to the mutably merged records of
`deduplicated`; the index plays the role of the reference.) -/
def SeenInv (st : DedupState) : Prop :=
  ∀ ki ∈ st.seen, ∃ r, st.out[ki.2]? = some r ∧ build_dedup_key r ≠ "||"

end EtlEngine

/-!
## Theorems

Helper lemmas come first; the claim theorems (and their witnesses and
counterexamples) follow, one per claim of the specification under review.
-/

/-- Claim C1 (corrected).  On the input segments
`CLP*CLM001*4*100.00*0.00*0.00*12*PCN1~` then `CAS*CO*16*100.00*1~`,
`parse_835_file` produces exactly one record, with `Claim_ID = "CLM001"`,
`Status = "4"` (the CLP code for Denied), `Balance_Amount = 100.00`
(the exact decimal `10000 × 10⁻²`, taken from CLP03, the billed charge)
and `CARC_Code = "16"` (the CAS reason code).  The record carries no paid
amount and no adjustment list: the CLP paid element and the CAS group code
and amount are never read, so the parts of the claim asserting a paid
amount of 0.00 and an adjustment entry `{group "CO", amount 100.00}` have
no counterpart in the output (see the counterexample). -/
theorem C1_theorem :
    DenialsDB.parse835 "CLP*CLM001*4*100.00*0.00*0.00*12*PCN1~CAS*CO*16*100.00*1~" "" =
      some [{ Claim_ID := "CLM001", Status := "4", Balance_Amount := ⟨10000, 2⟩,
              Payer_ID := "", CPT_Code := "", CARC_Code := "16", RARC_Code := "",
              Denial_Date := "", Practice_Type := "" }] ∧
    (Py.Dec.mk 10000 2).toRat = 100 := by
  constructor
  · decide
  · norm_num [Py.Dec.toRat]

/-- Claim C1 counterexample.  The claim asserts that the produced record
carries the paid amount 0.00 and one adjustment entry with group "CO" and
amount 100.00.  It does not: changing the CLP paid element (0.00 → 55.55),
the CAS group code (CO → XX) and the CAS amount (100.00 → 999.99) leaves
the parser output identical, so no component of the record represents the
paid amount or the adjustment group/amount. -/
theorem C1_counterexample :
    DenialsDB.parse835 "CLP*CLM001*4*100.00*0.00*0.00*12*PCN1~CAS*CO*16*100.00*1~" "" =
      DenialsDB.parse835 "CLP*CLM001*4*100.00*55.55*0.00*12*PCN1~CAS*XX*16*999.99*1~" "" := by
  decide

/-- Claim C3 (corrected).  `determine_claim_status_code` returns "4"
(Denied) exactly when the paid total is zero or the claim-status text,
after upper-casing, equals "DENIED"; in every other case it returns "1"
or "2" (Processed).  The correction relative to the claim: the comparison
is case-insensitive (the code upper-cases `claim_status` first). -/
theorem C3_theorem (e : EobTo835.Eob) :
    (EobTo835.determine_claim_status_code e = "4" ↔
      (e.total_paid = 0 ∨ Py.upper e.claim_status = "DENIED")) ∧
    (EobTo835.determine_claim_status_code e = "4" ∨
      EobTo835.determine_claim_status_code e = "2" ∨
      EobTo835.determine_claim_status_code e = "1") := by
  unfold EobTo835.determine_claim_status_code
  dsimp only
  split_ifs with h1 h2 <;> simp_all [Bool.or_eq_true, beq_iff_eq]
  tauto

/-- Claim C3 counterexample.  For an EOB whose `claim_status` text is
"Denied" (not equal to "DENIED") and whose paid total is 100.00, the code
derives the Denied status code "4", though the claim requires Processed
(paid amount nonzero, status text not equal to "DENIED"). -/
theorem C3_counterexample :
    EobTo835.determine_claim_status_code
        { EobTo835.make_eob with claim_status := "Denied", total_paid := 10000 } = "4" ∧
    ("Denied" : String) ≠ "DENIED" ∧ (10000 : Int) ≠ 0 := by decide

/-- Claim C8 (confirmed).  The element accessors of the two segment-based
parsers never fail on a short segment: `EDI271Parser._elem` yields `""` for
any index at or past the end of the segment, and `get_component` yields
`""` for any component index at or past the end of the split field. -/
theorem C8_theorem :
    (∀ (seg : List String) (idx : Nat), seg.length ≤ idx →
        Eligibility.elem seg idx = "") ∧
    (∀ (field : String) (idx : Nat), (Py.split field '^').length ≤ idx →
        EtlEngine.get_component field idx = "") := by
  constructor
  · intro seg idx h
    unfold Eligibility.elem
    rw [List.get?_eq_none.2 h]
  · intro field idx h
    unfold EtlEngine.get_component
    split
    · rfl
    · rw [List.get?_eq_none.2 h]

/-- Claim C8 witness: both accessors at concrete out-of-range indices. -/
theorem C8_witness :
    Eligibility.elem ["EB"] 7 = "" ∧ EtlEngine.get_component "DOE^JOHN" 9 = "" :=
  ⟨C8_theorem.1 ["EB"] 7 (by decide), C8_theorem.2 "DOE^JOHN" 9 (by decide)⟩

/-- Claim C9 (confirmed).  The 271 parse is a pure function of the file
text, the file path and the injected current instant (the only ambient
input, the `datetime.now()` read of `_finalize_patient`): two runs over the
same text with the same injected instant produce identical record lists. -/
theorem C9_theorem (raw₁ raw₂ fp₁ fp₂ : String) (now₁ now₂ : Nat)
    (hraw : raw₁ = raw₂) (hfp : fp₁ = fp₂) (hnow : now₁ = now₂) :
    Eligibility.parseFileRun raw₁ fp₁ now₁ = Eligibility.parseFileRun raw₂ fp₂ now₂ := by
  subst hraw; subst hfp; subst hnow; rfl

/-- Claim C9 witness: two runs over a concrete 271 fragment with the same
injected instant. -/
theorem C9_witness :
    Eligibility.parseFileRun "HL*1**22*0~EB*1~SE*3*0001~" "elig.edi"
        (Eligibility.encodeDT 2026 10 12 0) =
      Eligibility.parseFileRun "HL*1**22*0~EB*1~SE*3*0001~" "elig.edi"
        (Eligibility.encodeDT 2026 10 12 0) :=
  C9_theorem _ _ _ _ _ _ rfl rfl rfl

/-- Keys present in `carc_mapping_usage` are unchanged by a count bump. -/
theorem bump_lookup_isSome (u : List (String × EobTo835.UsageInfo)) (key k : String) :
    (alookup (EobTo835.bumpCount u key) k).isSome = (alookup u k).isSome := by
  induction u with
  | nil => rfl
  | cons hd t ih =>
      obtain ⟨k', v'⟩ := hd
      simp only [EobTo835.bumpCount]
      split_ifs with h1 <;> simp only [alookup] <;> split_ifs <;> simp [ih]

/-- Looking up after appending one binding. -/
theorem alookup_append_single_isSome {β : Type} (u : List (String × β)) (key k : String)
    (v : β) :
    (alookup (u ++ [(key, v)]) k).isSome ↔ (alookup u k).isSome ∨ key = k := by
  induction u with
  | nil =>
      simp only [List.nil_append, alookup]
      split_ifs with h
      · simp [beq_iff_eq] at h
        simp [h]
      · simp [beq_iff_eq] at h
        simp [alookup, h]
  | cons hd t ih =>
      obtain ⟨k', v'⟩ := hd
      simp only [List.cons_append, alookup]
      split_ifs <;> simp [ih]

/-- A key present after `record_carc_mapping` was present before or is the
recorded code. -/
theorem record_lookup_isSome (u : List (String × EobTo835.UsageInfo))
    (o od mc md k : String)
    (h : (alookup (EobTo835.record_carc_mapping u o od mc md) k).isSome) :
    (alookup u k).isSome ∨ k = o := by
  unfold EobTo835.record_carc_mapping at h
  split_ifs at h with hin
  · rw [bump_lookup_isSome] at h
    exact Or.inl h
  · rw [bump_lookup_isSome, alookup_append_single_isSome] at h
    rcases h with h | h
    · exact Or.inl h
    · exact Or.inr h.symm

/-- Every key of the audit map after one inner-loop step is an old key or a
code whose mapping differs from it. -/
theorem auditStepCode_inv (m : List (String × EobTo835.CarcEntry))
    (descs : List (String × String)) (u : List (String × EobTo835.UsageInfo))
    (c : String)
    (hu : ∀ k, (alookup u k).isSome → EobTo835.map_carc_code k m ≠ k) :
    ∀ k, (alookup (EobTo835.auditStepCode m descs u c) k).isSome →
      EobTo835.map_carc_code k m ≠ k := by
  intro k hk
  unfold EobTo835.auditStepCode at hk
  dsimp only at hk
  split_ifs at hk with hne
  · rcases record_lookup_isSome _ _ _ _ _ _ hk with h | rfl
    · exact hu k h
    · simpa [bne_iff_ne] using hne
  · exact hu k hk

/-- The inner-loop invariant extended over a whole list of codes. -/
theorem auditFoldCodes_inv (m : List (String × EobTo835.CarcEntry))
    (descs : List (String × String)) (codes : List String) :
    ∀ (u : List (String × EobTo835.UsageInfo)),
      (∀ k, (alookup u k).isSome → EobTo835.map_carc_code k m ≠ k) →
      ∀ k, (alookup (codes.foldl (EobTo835.auditStepCode m descs) u) k).isSome →
        EobTo835.map_carc_code k m ≠ k := by
  induction codes with
  | nil => intro u hu; exact hu
  | cons c t ih =>
      intro u hu
      exact ih _ (auditStepCode_inv m descs u c hu)

/-- The invariant extended over a whole list of service lines. -/
theorem auditFoldLines_inv (m : List (String × EobTo835.CarcEntry))
    (descs : List (String × String)) (lines : List EobTo835.ServiceLine) :
    ∀ (u : List (String × EobTo835.UsageInfo)),
      (∀ k, (alookup u k).isSome → EobTo835.map_carc_code k m ≠ k) →
      ∀ k, (alookup (lines.foldl (EobTo835.auditStepLine m descs) u) k).isSome →
        EobTo835.map_carc_code k m ≠ k := by
  induction lines with
  | nil => intro u hu; exact hu
  | cons svc t ih =>
      intro u hu
      exact ih _ (auditFoldCodes_inv m descs svc.adj_codes u hu)

/-- Claim C7 (corrected).  `map_carc_code` returns the mapped standard code
when the (stripped) code is in the table and the stripped code unchanged
otherwise.  The audit correction: only occurrences whose mapped code
differs from the raw code are recorded in `carc_mapping_usage`; a code
absent from the table maps to itself and is therefore never recorded, so
unmapped codes do not appear in the conversion audit (the claim asserted
they are recorded as unmapped). -/
theorem C7_theorem (m : List (String × EobTo835.CarcEntry)) (code : String) :
    (∀ e, alookup m (Py.strip code) = some e →
        EobTo835.map_carc_code code m = e.standard_code) ∧
    (alookup m (Py.strip code) = none →
        EobTo835.map_carc_code code m = Py.strip code) ∧
    (∀ (lines : List EobTo835.ServiceLine) (descs : List (String × String)) k,
        (alookup (EobTo835.collectCarcAudit lines m descs) k).isSome →
        EobTo835.map_carc_code k m ≠ k) := by
  refine ⟨?_, ?_, ?_⟩
  · intro e he
    unfold EobTo835.map_carc_code
    dsimp only
    rw [he]
  · intro he
    unfold EobTo835.map_carc_code
    dsimp only
    rw [he]
  · intro lines descs k hk
    exact auditFoldLines_inv m descs lines [] (by intro k h; simp [alookup] at h) k hk

/-- Claim C7 witness: a mapped code ("N007" → "4") and a pass-through code
("N999") under the built-in mapping table. -/
theorem C7_witness :
    EobTo835.map_carc_code "N007" EobTo835.DEFAULT_CARC_MAPPING = "4" ∧
    EobTo835.map_carc_code "N999" EobTo835.DEFAULT_CARC_MAPPING = "N999" :=
  ⟨(C7_theorem EobTo835.DEFAULT_CARC_MAPPING "N007").1 ⟨"4", "Modifier error"⟩ (by decide),
   (C7_theorem EobTo835.DEFAULT_CARC_MAPPING "N999").2.1 (by decide)⟩

/-- Claim C7 counterexample.  "N999" is absent from the built-in table; a
service line carrying it leaves the conversion audit empty, so the absent
code is not recorded as unmapped, contradicting the claim. -/
theorem C7_counterexample :
    alookup EobTo835.DEFAULT_CARC_MAPPING "N999" = none ∧
    EobTo835.collectCarcAudit
        [{ EobTo835.make_service_line with adj_codes := ["N999"] }]
        EobTo835.DEFAULT_CARC_MAPPING [] = [] := by decide

/-- `adjSum` distributes over append. -/
theorem adjSum_append (a b : List EobTo835.Adjustment) :
    EobTo835.adjSum (a ++ b) = EobTo835.adjSum a + EobTo835.adjSum b := by
  simp [EobTo835.adjSum]

/-- `adjSum` over a cons. -/
theorem adjSum_cons (a : EobTo835.Adjustment) (l : List EobTo835.Adjustment) :
    EobTo835.adjSum (a :: l) = a.amount + EobTo835.adjSum l := by
  simp [EobTo835.adjSum]

/-- The extra codes of a multi-code CAS segment all carry amount `0.00`. -/
theorem adjSum_zeros (l : List String) :
    EobTo835.adjSum (l.map fun c => (⟨"CO", c, 0⟩ : EobTo835.Adjustment)) = 0 := by
  induction l with
  | nil => rfl
  | cons h t ih =>
      rw [List.map_cons, adjSum_cons, ih]
      rfl

/-- The inferred coinsurance is never negative. -/
theorem coinsurance_nonneg (svc : EobTo835.ServiceLine) : 0 ≤ EobTo835.coinsurance svc := by
  unfold EobTo835.coinsurance
  split_ifs with h
  · omega
  · omega

/-- Under the EOB consistency condition `paid + deductible + copay ≤
allowed`, the patient-responsibility total reconstructed for a line equals
`allowed − paid`. -/
theorem prTotal_eq (svc : EobTo835.ServiceLine)
    (h1 : 0 ≤ svc.paid) (h2 : 0 ≤ svc.deductible) (h3 : 0 ≤ svc.copay)
    (h4 : svc.paid + svc.deductible + svc.copay ≤ svc.allowed) :
    EobTo835.prTotalFromLine svc = svc.allowed - svc.paid := by
  unfold EobTo835.prTotalFromLine EobTo835.coinsurance
  split_ifs with h
  · omega
  · rw [not_and_or] at h
    rcases h with h | h <;> omega

/-- The PR CAS entries of a line sum to its reconstructed
patient-responsibility total. -/
theorem casPR_sum (svc : EobTo835.ServiceLine)
    (h2 : 0 ≤ svc.deductible) (h3 : 0 ≤ svc.copay) :
    EobTo835.adjSum (EobTo835.casPR svc) = EobTo835.prTotalFromLine svc := by
  have hc := coinsurance_nonneg svc
  unfold EobTo835.casPR EobTo835.prTotalFromLine
  split_ifs <;> simp [EobTo835.adjSum] <;> omega

/-- Per-line bound: for a service line satisfying the EOB consistency
conditions, the CAS amounts emitted for the line sum to at most
`billed − paid`. -/
theorem casLine_le (m : List (String × EobTo835.CarcEntry)) (svc : EobTo835.ServiceLine)
    (h1 : 0 ≤ svc.paid) (h2 : 0 ≤ svc.deductible) (h3 : 0 ≤ svc.copay)
    (h4 : svc.paid + svc.deductible + svc.copay ≤ svc.allowed)
    (h5 : svc.allowed ≤ svc.billed)
    (h6 : svc.adj_amount ≤ svc.billed - svc.paid)
    (h7 : svc.paid = 0 → svc.allowed = 0) :
    EobTo835.adjSum (EobTo835.casLine svc m) ≤ svc.billed - svc.paid := by
  have hpr : EobTo835.prTotalFromLine svc = svc.allowed - svc.paid :=
    prTotal_eq svc h1 h2 h3 h4
  have hprS := casPR_sum svc h2 h3
  unfold EobTo835.casLine
  rw [adjSum_append, hprS, hpr]
  unfold EobTo835.casCO
  dsimp only
  split_ifs with hA hB hC hD hE
  · rw [adjSum_cons, adjSum_zeros]
    have hN : EobTo835.coNet svc = max (svc.adj_amount - EobTo835.prTotalFromLine svc) 0 := rfl
    rw [hpr] at hN
    dsimp only
    omega
  · rw [adjSum_cons, adjSum_zeros]
    dsimp only
    omega
  · rw [adjSum_cons]
    simp only [EobTo835.adjSum, List.map_nil, List.sum_nil]
    omega
  · simp only [EobTo835.adjSum, List.map_nil, List.sum_nil]
    omega
  · rw [adjSum_cons]
    simp only [EobTo835.adjSum, List.map_nil, List.sum_nil]
    have := h7 hE.2.1
    omega
  · simp only [EobTo835.adjSum, List.map_nil, List.sum_nil]
    omega

/-- `adjSum` of the per-claim CAS list is the sum of the per-line sums. -/
theorem adjSum_flatMap (m : List (String × EobTo835.CarcEntry))
    (l : List EobTo835.ServiceLine) :
    EobTo835.adjSum (l.flatMap fun svc => EobTo835.casLine svc m) =
      (l.map fun svc => EobTo835.adjSum (EobTo835.casLine svc m)).sum := by
  induction l with
  | nil => rfl
  | cons h t ih => rw [List.flatMap_cons, adjSum_append, ih, List.map_cons, List.sum_cons]

/-- Summing `billed − paid` over the lines. -/
theorem sum_map_sub (l : List EobTo835.ServiceLine) :
    (l.map fun s => s.billed - s.paid).sum =
      (l.map fun s => s.billed).sum - (l.map fun s => s.paid).sum := by
  induction l with
  | nil => simp
  | cons h t ih =>
      simp only [List.map_cons, List.sum_cons, ih]
      ring

/-- Claim C2 (corrected).  The balancing invariant
`billed ≥ paid + Σ(adjustment amounts) − 0.01` holds for every 835 claim
generated from an EOB whose parsed totals and service lines are mutually
consistent: the billed/paid totals equal the line sums, and every line has
nonnegative deductible and copay, `paid + deductible + copay ≤ allowed ≤
billed`, `adj_amount ≤ billed − paid`, and a zero allowed amount whenever
the paid amount is zero.  (Amounts are cents; the 0.01 tolerance is the
final `− 1`.)  Without these consistency conditions the invariant fails on
reachable parses — see the counterexample. -/
theorem C2_theorem (m : List (String × EobTo835.CarcEntry)) (e : EobTo835.Eob)
    (hb : e.total_billed = (e.service_lines.map fun s => s.billed).sum)
    (hp : e.total_paid = (e.service_lines.map fun s => s.paid).sum)
    (hl : ∀ svc ∈ e.service_lines,
        0 ≤ svc.paid ∧ 0 ≤ svc.deductible ∧ 0 ≤ svc.copay ∧
        svc.paid + svc.deductible + svc.copay ≤ svc.allowed ∧
        svc.allowed ≤ svc.billed ∧ svc.adj_amount ≤ svc.billed - svc.paid ∧
        (svc.paid = 0 → svc.allowed = 0)) :
    e.total_paid + EobTo835.adjSum (EobTo835.claimAdjustments e m) - 1 ≤ e.total_billed := by
  have key : EobTo835.adjSum (EobTo835.claimAdjustments e m) ≤
      (e.service_lines.map fun s => s.billed - s.paid).sum := by
    unfold EobTo835.claimAdjustments
    rw [adjSum_flatMap]
    apply List.sum_le_sum
    intro s hs
    obtain ⟨a, b, c, d, f, g, h⟩ := hl s hs
    exact casLine_le m s a b c d f g h
  have hsub := sum_map_sub e.service_lines
  rw [hb, hp]
  linarith [key, hsub]

/-- Claim C2 witness: a consistent single-line EOB (billed 145.00, allowed
132.31, deductible 52.92, paid 79.39, adjustment code 97 with amount
29.97) satisfies the balancing invariant. -/
theorem C2_witness :
    (EobTo835.eobConsistentSample).total_paid +
      EobTo835.adjSum (EobTo835.claimAdjustments EobTo835.eobConsistentSample
        EobTo835.DEFAULT_CARC_MAPPING) - 1 ≤
    (EobTo835.eobConsistentSample).total_billed :=
  C2_theorem EobTo835.DEFAULT_CARC_MAPPING EobTo835.eobConsistentSample
    (by decide) (by decide) (by decide)

/-- Claim C2 counterexample.  The EOB parsed from a service line
`1  97110  Therapy  $100.00  $0.00  $50.00  $0.00  1  $0.00  $0.00` with
totals `Total Billed: $100.00`, `Total Paid: $0.00` (a fully denied line
with a deductible and only the patient-responsibility code "1") makes
`generate_835` emit both `CAS*CO*45*100.00` (denied line, no CO code) and
`CAS*PR*1*50.00`: the adjustments sum to 150.00 and
`billed ≥ paid + Σ − 0.01` fails. -/
theorem C2_counterexample :
    EobTo835.adjSum (EobTo835.claimAdjustments EobTo835.eobDeniedDeductibleSample
        EobTo835.DEFAULT_CARC_MAPPING) = 15000 ∧
    ¬((EobTo835.eobDeniedDeductibleSample).total_paid +
        EobTo835.adjSum (EobTo835.claimAdjustments EobTo835.eobDeniedDeductibleSample
          EobTo835.DEFAULT_CARC_MAPPING) - 1 ≤
      (EobTo835.eobDeniedDeductibleSample).total_billed) := by decide

/-- A dict write makes the written key readable. -/
theorem alookup_dset_self {β : Type} (o : List (String × β)) (k : String) (v : β) :
    alookup (dset o k v) k = some v := by
  induction o with
  | nil => simp [dset, alookup]
  | cons hd t ih =>
      obtain ⟨k', v'⟩ := hd
      simp only [dset]
      split_ifs with h
      · simp [alookup, h]
      · simp [alookup, h, ih]

/-- A dict write leaves other keys untouched. -/
theorem alookup_dset_ne {β : Type} (o : List (String × β)) (k j : String) (v : β)
    (hj : k ≠ j) :
    alookup (dset o k v) j = alookup o j := by
  induction o with
  | nil => simp [dset, alookup, beq_eq_false_iff_ne.2 hj]
  | cons hd t ih =>
      obtain ⟨k', v'⟩ := hd
      simp only [dset]
      split_ifs with h
      · rw [beq_iff_eq] at h
        subst h
        simp [alookup, beq_eq_false_iff_ne.2 hj]
      · simp only [alookup, ih]

/-- One merge iteration leaves other keys untouched. -/
theorem fillField_lookup_other (o : EtlEngine.PatientD) (kv : String × String)
    (j : String) (hj : kv.1 ≠ j) :
    alookup (EtlEngine.fillField o kv) j = alookup o j := by
  unfold EtlEngine.fillField
  dsimp only
  split_ifs
  · exact alookup_dset_ne o kv.1 j kv.2 hj
  · rfl

/-- One merge iteration never overwrites a nonempty field. -/
theorem fillField_keeps_nonempty (o : EtlEngine.PatientD) (kv : String × String)
    (j : String) (v : String) (hv : alookup o j = some v) (hne : v ≠ "") :
    alookup (EtlEngine.fillField o kv) j = some v := by
  by_cases hj : kv.1 = j
  · subst hj
    unfold EtlEngine.fillField
    dsimp only
    rw [hv]
    simp [beq_eq_false_iff_ne.2 hne, hv]
  · rw [fillField_lookup_other o kv j hj, hv]

/-- The merge never overwrites a nonempty field of the first-seen record. -/
theorem mergeFill_keeps_nonempty (dup : EtlEngine.PatientD) :
    ∀ (orig : EtlEngine.PatientD) (j v : String), alookup orig j = some v → v ≠ "" →
      alookup (EtlEngine.mergeFill orig dup) j = some v := by
  induction dup with
  | nil => intro orig j v hv _; exact hv
  | cons kv rest ih =>
      intro orig j v hv hne
      unfold EtlEngine.mergeFill
      rw [List.foldl_cons]
      exact ih _ j v (fillField_keeps_nonempty orig kv j v hv hne) hne

/-- The merge leaves keys that the duplicate does not carry untouched. -/
theorem mergeFill_lookup_notmem (dup : EtlEngine.PatientD) :
    ∀ (orig : EtlEngine.PatientD) (j : String), j ∉ dup.map Prod.fst →
      alookup (EtlEngine.mergeFill orig dup) j = alookup orig j := by
  induction dup with
  | nil => intro orig j _; rfl
  | cons kv rest ih =>
      intro orig j hj
      simp only [List.map_cons, List.mem_cons, not_or] at hj
      unfold EtlEngine.mergeFill
      rw [List.foldl_cons]
      show alookup (EtlEngine.mergeFill (EtlEngine.fillField orig kv) rest) j = _
      rw [ih _ j hj.2, fillField_lookup_other orig kv j (fun h => hj.1 h.symm)]

/-- Field-level merge: a field missing or empty on the first-seen record
takes its value from the duplicate (whose dict keys are distinct, as Python
dict keys are). -/
theorem mergeFill_fills (dup : EtlEngine.PatientD) :
    ∀ (orig : EtlEngine.PatientD) (j v : String), (dup.map Prod.fst).Nodup →
      alookup dup j = some v →
      (alookup orig j = none ∨ alookup orig j = some "") →
      alookup (EtlEngine.mergeFill orig dup) j = some v := by
  induction dup with
  | nil => intro orig j v _ hv _; simp [alookup] at hv
  | cons kv rest ih =>
      intro orig j v hnd hv horig
      simp only [List.map_cons, List.nodup_cons] at hnd
      unfold EtlEngine.mergeFill
      rw [List.foldl_cons]
      by_cases hj : kv.1 = j
      · have hv0 : kv.2 = v := by
          unfold alookup at hv
          rw [if_pos (beq_iff_eq.2 hj)] at hv
          exact Option.some.inj hv
        subst hv0
        subst hj
        have hfill : alookup (EtlEngine.fillField orig kv) kv.1 = some kv.2 := by
          unfold EtlEngine.fillField
          dsimp only
          rcases horig with h | h <;> rw [h] <;> simp [alookup_dset_self]
        show alookup (EtlEngine.mergeFill (EtlEngine.fillField orig kv) rest) kv.1 = _
        rw [mergeFill_lookup_notmem rest _ kv.1 hnd.1, hfill]
      · have hv' : alookup rest j = some v := by
          unfold alookup at hv
          simp only [beq_iff_eq] at hv
          rw [if_neg hj] at hv
          exact hv
        have horig' : alookup (EtlEngine.fillField orig kv) j = none ∨
            alookup (EtlEngine.fillField orig kv) j = some "" := by
          rw [fillField_lookup_other orig kv j hj]
          exact horig
        exact ih _ j v hnd.2 hv' horig'

/-- A string of length zero is empty. -/
theorem str_len_zero (s : String) (h : s.length = 0) : s = "" := by
  cases s with
  | mk data =>
      cases data with
      | nil => rfl
      | cons c cs => simp [String.length] at h

/-- The dedup key is the all-empty `"||"` exactly when all three key
components are empty. -/
theorem key_eq_bars (r : EtlEngine.PatientD) :
    EtlEngine.build_dedup_key r = "||" ↔
      Py.upper (Py.strip (EtlEngine.pget r "last_name")) = "" ∧
      Py.upper (Py.strip (EtlEngine.pget r "first_name")) = "" ∧
      Py.strip (EtlEngine.pget r "dob") = "" := by
  constructor
  · intro h
    have hlen := congrArg String.length h
    simp only [EtlEngine.build_dedup_key, String.length_append] at hlen
    have h1 : ("|" : String).length = 1 := rfl
    have h2 : ("||" : String).length = 2 := rfl
    rw [h1, h2] at hlen
    refine ⟨str_len_zero _ ?_, str_len_zero _ ?_, str_len_zero _ ?_⟩ <;> omega
  · rintro ⟨h1, h2, h3⟩
    unfold EtlEngine.build_dedup_key
    rw [h1, h2, h3]
    rfl

/-- The dedup key is never the empty string. -/
theorem key_ne_empty (r : EtlEngine.PatientD) : EtlEngine.build_dedup_key r ≠ "" := by
  intro h
  have hlen := congrArg String.length h
  simp only [EtlEngine.build_dedup_key, String.length_append] at hlen
  have h1 : ("|" : String).length = 1 := rfl
  have h2 : ("" : String).length = 0 := rfl
  rw [h1, h2] at hlen
  omega

/-- A name component of the key survives the merge when nonempty. -/
theorem name_comp_preserved (orig dup : EtlEngine.PatientD) (f : String)
    (h : Py.upper (Py.strip (EtlEngine.pget orig f)) ≠ "") :
    Py.upper (Py.strip (EtlEngine.pget (EtlEngine.mergeFill orig dup) f)) =
      Py.upper (Py.strip (EtlEngine.pget orig f)) := by
  cases halo : alookup orig f with
  | none =>
      exfalso
      apply h
      unfold EtlEngine.pget mget
      rw [halo]
      rfl
  | some v =>
      by_cases hv : v = ""
      · exfalso
        apply h
        unfold EtlEngine.pget mget
        rw [halo, hv]
        rfl
      · have hm := mergeFill_keeps_nonempty dup orig f v halo hv
        unfold EtlEngine.pget mget
        rw [hm, halo]

/-- The dob component of the key survives the merge when nonempty. -/
theorem dob_comp_preserved (orig dup : EtlEngine.PatientD) (f : String)
    (h : Py.strip (EtlEngine.pget orig f) ≠ "") :
    Py.strip (EtlEngine.pget (EtlEngine.mergeFill orig dup) f) =
      Py.strip (EtlEngine.pget orig f) := by
  cases halo : alookup orig f with
  | none =>
      exfalso
      apply h
      unfold EtlEngine.pget mget
      rw [halo]
      rfl
  | some v =>
      by_cases hv : v = ""
      · exfalso
        apply h
        unfold EtlEngine.pget mget
        rw [halo, hv]
        rfl
      · have hm := mergeFill_keeps_nonempty dup orig f v halo hv
        unfold EtlEngine.pget mget
        rw [hm, halo]

/-- Merging into a record whose key is not the all-empty key cannot produce
the all-empty key: the merge only fills empty fields. -/
theorem mergeFill_key (orig dup : EtlEngine.PatientD)
    (h : EtlEngine.build_dedup_key orig ≠ "||") :
    EtlEngine.build_dedup_key (EtlEngine.mergeFill orig dup) ≠ "||" := by
  intro hm
  apply h
  rw [key_eq_bars] at hm ⊢
  obtain ⟨m1, m2, m3⟩ := hm
  refine ⟨?_, ?_, ?_⟩
  · by_contra hA
    have hp := name_comp_preserved orig dup "last_name" hA
    rw [hp] at m1
    exact hA m1
  · by_contra hA
    have hp := name_comp_preserved orig dup "first_name" hA
    rw [hp] at m2
    exact hA m2
  · by_contra hA
    have hp := dob_comp_preserved orig dup "dob" hA
    rw [hp] at m3
    exact hA m3

/-- A successful dict lookup yields a binding of the list. -/
theorem alookup_mem {β : Type} (l : List (String × β)) (k : String) (v : β)
    (h : alookup l k = some v) : (k, v) ∈ l := by
  induction l with
  | nil => simp [alookup] at h
  | cons hd t ih =>
      obtain ⟨k', v'⟩ := hd
      unfold alookup at h
      split_ifs at h with hk
      · rw [beq_iff_eq] at hk
        subst hk
        rw [← Option.some.inj h]
        exact List.mem_cons_self _ _
      · exact List.mem_cons_of_mem _ (ih h)

/-- Overwriting a filtered-out slot with a filtered-out record leaves the
filtered list unchanged. -/
theorem filter_set_of_not (pr : EtlEngine.PatientD → Bool) :
    ∀ (l : List EtlEngine.PatientD) (i : Nat) (a : EtlEngine.PatientD),
      (∀ r, l[i]? = some r → pr r = false) → pr a = false →
      (l.set i a).filter pr = l.filter pr := by
  intro l
  induction l with
  | nil => intro i a _ _; rfl
  | cons x t ih =>
      intro i a hi ha
      cases i with
      | zero =>
          have hx : pr x = false := hi x (by simp)
          simp [List.filter, hx, ha]
      | succ n =>
          have ht := ih n a (fun r hr => hi r (by simpa using hr)) ha
          simp only [List.set, List.filter]
          rw [ht]

/-- The dedup loop preserves the seen-index invariant. -/
theorem dedupStep_inv (st : EtlEngine.DedupState) (p : EtlEngine.PatientD)
    (h : EtlEngine.SeenInv st) : EtlEngine.SeenInv (EtlEngine.dedupStep st p) := by
  unfold EtlEngine.dedupStep
  dsimp only
  split_ifs with hk
  · intro ki hki
    obtain ⟨r, hr, hne⟩ := h ki hki
    have hlt : ki.2 < st.out.length := (List.getElem?_eq_some.1 hr).1
    exact ⟨r, by rw [List.getElem?_append_left hlt]; exact hr, hne⟩
  · have hk' : EtlEngine.build_dedup_key p ≠ "||" := by
      simp only [Bool.or_eq_true, beq_iff_eq, not_or] at hk
      exact hk.2
    cases halo : alookup st.seen (EtlEngine.build_dedup_key p) with
    | some idx =>
        dsimp only
        obtain ⟨r0, hr0, hne0⟩ := h _ (alookup_mem _ _ _ halo)
        have horig : st.out.getD idx [] = r0 := by
          rw [List.getD_eq_getElem?_getD, hr0]
          rfl
        intro ki hki
        obtain ⟨r, hr, hne⟩ := h ki hki
        by_cases hii : ki.2 = idx
        · refine ⟨EtlEngine.mergeFill r0 p, ?_, mergeFill_key r0 p hne0⟩
          rw [hii, List.getElem?_set_self', hr0, horig]
          rfl
        · exact ⟨r, by rw [List.getElem?_set_ne (fun hh => hii hh.symm)]; exact hr, hne⟩
    | none =>
        dsimp only
        intro ki hki
        rcases List.mem_append.1 hki with hold | hnew
        · obtain ⟨r, hr, hne⟩ := h ki hold
          have hlt : ki.2 < st.out.length := (List.getElem?_eq_some.1 hr).1
          exact ⟨r, by rw [List.getElem?_append_left hlt]; exact hr, hne⟩
        · have hki2 : ki = (EtlEngine.build_dedup_key p, st.out.length) := by
            simpa using hnew
          subst hki2
          exact ⟨p, List.getElem?_concat_length _ _, hk'⟩

/-- One dedup step appends a record to the `"||"`-filtered output exactly
when the record carries the all-empty key. -/
theorem dedupStep_filter (st : EtlEngine.DedupState) (p : EtlEngine.PatientD)
    (h : EtlEngine.SeenInv st) :
    (EtlEngine.dedupStep st p).out.filter EtlEngine.hasEmptyKey =
      st.out.filter EtlEngine.hasEmptyKey ++
        (if EtlEngine.hasEmptyKey p then [p] else []) := by
  unfold EtlEngine.dedupStep
  dsimp only
  by_cases hk : (EtlEngine.build_dedup_key p == "" ||
      EtlEngine.build_dedup_key p == "||") = true
  · rw [if_pos hk]
    have hp : EtlEngine.hasEmptyKey p = true := by
      simp only [Bool.or_eq_true, beq_iff_eq] at hk
      rcases hk with hk | hk
      · exact absurd hk (key_ne_empty p)
      · simp [EtlEngine.hasEmptyKey, hk]
    rw [if_pos hp, List.filter_append]
    simp [List.filter, hp]
  · rw [if_neg hk]
    have hk' : EtlEngine.build_dedup_key p ≠ "||" := by
      simp only [Bool.or_eq_true, beq_iff_eq, not_or] at hk
      exact hk.2
    have hp : EtlEngine.hasEmptyKey p = false := by
      simp [EtlEngine.hasEmptyKey, hk']
    rw [if_neg (by simp [hp])]
    rw [List.append_nil]
    cases halo : alookup st.seen (EtlEngine.build_dedup_key p) with
    | some idx =>
        dsimp only
        obtain ⟨r0, hr0, hne0⟩ := h _ (alookup_mem _ _ _ halo)
        have horig : st.out.getD idx [] = r0 := by
          rw [List.getD_eq_getElem?_getD, hr0]
          rfl
        apply filter_set_of_not
        · intro r hr
          rw [hr0] at hr
          rw [← Option.some.inj hr]
          simp [EtlEngine.hasEmptyKey, hne0]
        · rw [horig]
          simp [EtlEngine.hasEmptyKey, mergeFill_key r0 p hne0]
    | none =>
        dsimp only
        rw [List.filter_append]
        simp [List.filter, hp]

/-- The dedup loop preserves `"||"`-keyed records verbatim and in order. -/
theorem dedup_fold_filter :
    ∀ (l : List EtlEngine.PatientD) (st : EtlEngine.DedupState), EtlEngine.SeenInv st →
      (l.foldl EtlEngine.dedupStep st).out.filter EtlEngine.hasEmptyKey =
        st.out.filter EtlEngine.hasEmptyKey ++ l.filter EtlEngine.hasEmptyKey := by
  intro l
  induction l with
  | nil => intro st _; simp
  | cons p t ih =>
      intro st hst
      rw [List.foldl_cons, ih _ (dedupStep_inv st p hst), dedupStep_filter st p hst]
      rw [List.filter_cons, List.append_assoc]
      cases hp : EtlEngine.hasEmptyKey p <;> simp [hp]

/-- Claim C6 (corrected).  Two records with identical (last name, first
name, date of birth) — with the proviso that the shared key is not the
all-empty key — collapse into one record: the first-seen record merged
field-by-field from the duplicate, with the duplicate counter at exactly 1
and one audit row naming both source systems; and every field missing or
empty on the first-seen record takes its value from the duplicate. -/
theorem C6_theorem (p q : EtlEngine.PatientD)
    (hk : EtlEngine.build_dedup_key p = EtlEngine.build_dedup_key q)
    (hne : EtlEngine.build_dedup_key p ≠ "||") :
    EtlEngine.deduplicate_patients [p, q] =
      ([EtlEngine.mergeFill p q], 1,
        [{ patient_key := EtlEngine.build_dedup_key q,
           duplicate_system := EtlEngine.pget q "source_system",
           original_system := EtlEngine.pget p "source_system",
           patient_id_dup := EtlEngine.pget q "patient_id",
           patient_id_orig := EtlEngine.pget p "patient_id" }]) ∧
    (∀ f v, (q.map Prod.fst).Nodup → alookup q f = some v →
        (alookup p f = none ∨ alookup p f = some "") →
        alookup (EtlEngine.mergeFill p q) f = some v) := by
  constructor
  · have hne'' : EtlEngine.build_dedup_key p ≠ "" := key_ne_empty p
    have hq : EtlEngine.build_dedup_key q = EtlEngine.build_dedup_key p := hk.symm
    unfold EtlEngine.deduplicate_patients
    rw [List.foldl_cons, List.foldl_cons, List.foldl_nil]
    have h1 : EtlEngine.dedupStep ⟨[], [], 0, []⟩ p =
        ⟨[p], [(EtlEngine.build_dedup_key p, 0)], 0, []⟩ := by
      unfold EtlEngine.dedupStep
      dsimp only
      rw [if_neg (by simp [beq_iff_eq, hne, hne''])]
      rfl
    rw [h1]
    unfold EtlEngine.dedupStep
    dsimp only
    rw [if_neg (by simp [beq_iff_eq, hq, hne, hne''])]
    have halo : alookup [(EtlEngine.build_dedup_key p, 0)]
        (EtlEngine.build_dedup_key q) = some 0 := by
      unfold alookup
      rw [if_pos (beq_iff_eq.2 hk)]
    rw [halo]
    rfl
  · intro f v hnd hv horig
    exact mergeFill_fills q p f v hnd hv horig

/-- Claim C6 witness: two concrete records sharing (DOE, JOHN,
1980-01-01) from systems SYS_A and SYS_B collapse into one merged record
(the empty phone of the first is filled from the duplicate), with
duplicate count 1 and one audit row. -/
theorem C6_witness :
    EtlEngine.deduplicate_patients
        [[("last_name", "DOE"), ("first_name", "JOHN"), ("dob", "1980-01-01"),
          ("source_system", "SYS_A"), ("patient_id", "P1"), ("phone", "")],
         [("last_name", "DOE"), ("first_name", "JOHN"), ("dob", "1980-01-01"),
          ("source_system", "SYS_B"), ("patient_id", "P2"),
          ("phone", "(214) 555-0100")]] =
      ([[("last_name", "DOE"), ("first_name", "JOHN"), ("dob", "1980-01-01"),
         ("source_system", "SYS_A"), ("patient_id", "P1"),
         ("phone", "(214) 555-0100")]], 1,
        [{ patient_key := "DOE|JOHN|1980-01-01", duplicate_system := "SYS_B",
           original_system := "SYS_A", patient_id_dup := "P2",
           patient_id_orig := "P1" }]) := by
  have h := C6_theorem
    [("last_name", "DOE"), ("first_name", "JOHN"), ("dob", "1980-01-01"),
     ("source_system", "SYS_A"), ("patient_id", "P1"), ("phone", "")]
    [("last_name", "DOE"), ("first_name", "JOHN"), ("dob", "1980-01-01"),
     ("source_system", "SYS_B"), ("patient_id", "P2"), ("phone", "(214) 555-0100")]
    (by decide) (by decide)
  rw [h.1]
  decide

/-- Claim C6 counterexample.  Two identical records whose last name, first
name and date of birth are all empty do not collapse: both survive in the
output and the duplicate counter stays 0, so the claim fails without the
non-empty-key proviso. -/
theorem C6_counterexample :
    EtlEngine.deduplicate_patients
        [[("last_name", ""), ("first_name", ""), ("dob", ""), ("patient_id", "X1")],
         [("last_name", ""), ("first_name", ""), ("dob", ""), ("patient_id", "X1")]] =
      ([[("last_name", ""), ("first_name", ""), ("dob", ""), ("patient_id", "X1")],
        [("last_name", ""), ("first_name", ""), ("dob", ""), ("patient_id", "X1")]],
       0, []) := by decide

/-- Claim C10 (confirmed).  Records whose (last name, first name, date of
birth) are all empty bypass deduplication: the `"||"`-keyed records of the
input reappear in the deduplicated output verbatim, in order and unmerged
(in particular two all-empty-key records never collapse), and appending
such a record to any input extends the output by exactly that record while
leaving the duplicate counter and audit untouched. -/
theorem C10_theorem (l : List EtlEngine.PatientD) (p : EtlEngine.PatientD)
    (hp : EtlEngine.build_dedup_key p = "||") :
    ((EtlEngine.deduplicate_patients l).1.filter EtlEngine.hasEmptyKey =
      l.filter EtlEngine.hasEmptyKey) ∧
    EtlEngine.deduplicate_patients (l ++ [p]) =
      ((EtlEngine.deduplicate_patients l).1 ++ [p],
        (EtlEngine.deduplicate_patients l).2.1,
        (EtlEngine.deduplicate_patients l).2.2) := by
  constructor
  · have hfold := dedup_fold_filter l ⟨[], [], 0, []⟩ (by intro ki hki; simp at hki)
    unfold EtlEngine.deduplicate_patients
    dsimp only
    rw [hfold]
    rfl
  · unfold EtlEngine.deduplicate_patients
    dsimp only
    rw [List.foldl_append, List.foldl_cons, List.foldl_nil]
    have hstep : ∀ st : EtlEngine.DedupState,
        EtlEngine.dedupStep st p = { st with out := st.out ++ [p] } := by
      intro st
      unfold EtlEngine.dedupStep
      dsimp only
      rw [if_pos (by simp [beq_iff_eq, hp])]
    rw [hstep]

/-- Claim C10 witness: appending a concrete all-empty-key record to a
one-record input extends the output verbatim with counter and audit
unchanged. -/
theorem C10_witness :
    EtlEngine.deduplicate_patients
        ([[("last_name", "DOE"), ("first_name", "JOHN"), ("dob", "19800101")]] ++
          [[("last_name", ""), ("first_name", ""), ("dob", "")]]) =
      ((EtlEngine.deduplicate_patients
          [[("last_name", "DOE"), ("first_name", "JOHN"), ("dob", "19800101")]]).1 ++
        [[("last_name", ""), ("first_name", ""), ("dob", "")]],
       (EtlEngine.deduplicate_patients
          [[("last_name", "DOE"), ("first_name", "JOHN"), ("dob", "19800101")]]).2.1,
       (EtlEngine.deduplicate_patients
          [[("last_name", "DOE"), ("first_name", "JOHN"), ("dob", "19800101")]]).2.2) :=
  (C10_theorem [[("last_name", "DOE"), ("first_name", "JOHN"), ("dob", "19800101")]]
    [("last_name", ""), ("first_name", ""), ("dob", "")] (by decide)).2

/-- The benefit chain of the EB interpreter never touches the coverage
status. -/
theorem ebBenefitPart_status (eb01 eb02 eb03 eb06 eb07 cl : String) (amount : Py.Dec)
    (oon : Bool) (p : Eligibility.Patient) :
    (Eligibility.ebBenefitPart eb01 eb02 eb03 eb06 eb07 cl amount oon p).coverage_status =
      p.coverage_status := by
  unfold Eligibility.ebBenefitPart
  dsimp only
  split_ifs <;> rfl

/-- The services-covered block never touches the coverage status. -/
theorem ebServicesPart_status (eb01 eb03 st bt cl tp : String) (amount : Py.Dec)
    (oon : Bool) (p : Eligibility.Patient) :
    (Eligibility.ebServicesPart eb01 eb03 st bt cl tp amount oon p).coverage_status =
      p.coverage_status := by
  unfold Eligibility.ebServicesPart
  split_ifs <;> rfl

/-- Coverage status after the status-tracking block of the EB
interpreter. -/
theorem ebStatusPart_status (eb01 eb05 : String) (p : Eligibility.Patient) :
    (Eligibility.ebStatusPart eb01 eb05 p).coverage_status =
      if eb01 == "1" || eb01 == "2" || eb01 == "3" || eb01 == "4" || eb01 == "5" then
        "Active"
      else if eb01 == "6" || eb01 == "7" || eb01 == "8" then
        (if p.coverage_status != "Active" then "Inactive" else p.coverage_status)
      else p.coverage_status := by
  unfold Eligibility.ebStatusPart
  split_ifs <;> rfl

/-- The benefit chain never touches the termination date. -/
theorem ebBenefitPart_term (eb01 eb02 eb03 eb06 eb07 cl : String) (amount : Py.Dec)
    (oon : Bool) (p : Eligibility.Patient) :
    (Eligibility.ebBenefitPart eb01 eb02 eb03 eb06 eb07 cl amount oon p).term_date =
      p.term_date := by
  unfold Eligibility.ebBenefitPart
  dsimp only
  split_ifs <;> rfl

/-- The services-covered block never touches the termination date. -/
theorem ebServicesPart_term (eb01 eb03 st bt cl tp : String) (amount : Py.Dec)
    (oon : Bool) (p : Eligibility.Patient) :
    (Eligibility.ebServicesPart eb01 eb03 st bt cl tp amount oon p).term_date =
      p.term_date := by
  unfold Eligibility.ebServicesPart
  split_ifs <;> rfl

/-- The status-tracking block never touches the termination date. -/
theorem ebStatusPart_term (eb01 eb05 : String) (p : Eligibility.Patient) :
    (Eligibility.ebStatusPart eb01 eb05 p).term_date = p.term_date := by
  unfold Eligibility.ebStatusPart
  split_ifs <;> rfl

/-- Coverage status after one EB segment. -/
theorem parseEB_status (seg : List String) (p : Eligibility.Patient) :
    (Eligibility.parseEB seg p).coverage_status =
      if Eligibility.isActiveEB seg then "Active"
      else if Eligibility.isInactiveEB seg then
        (if p.coverage_status != "Active" then "Inactive" else p.coverage_status)
      else p.coverage_status := by
  unfold Eligibility.parseEB Eligibility.isActiveEB Eligibility.isInactiveEB
  dsimp only
  rw [ebServicesPart_status, ebBenefitPart_status, ebStatusPart_status]

/-- The EB interpreter never touches the termination date. -/
theorem parseEB_term (seg : List String) (p : Eligibility.Patient) :
    (Eligibility.parseEB seg p).term_date = p.term_date := by
  unfold Eligibility.parseEB
  dsimp only
  rw [ebServicesPart_term, ebBenefitPart_term, ebStatusPart_term]

/-- Coverage status after folding a list of EB segments: Active as soon as
any active code was seen (then sticky), else Inactive if any inactive code
was seen, else unchanged. -/
theorem foldEB_status (ebs : List (List String)) :
    ∀ p : Eligibility.Patient,
      (ebs.foldl (fun p s => Eligibility.parseEB s p) p).coverage_status =
        if p.coverage_status == "Active" || ebs.any Eligibility.isActiveEB then "Active"
        else if ebs.any Eligibility.isInactiveEB then "Inactive"
        else p.coverage_status := by
  induction ebs with
  | nil =>
      intro p
      simp only [List.foldl_nil, List.any_nil, Bool.or_false]
      by_cases h : (p.coverage_status == "Active") = true
      · have h2 := beq_iff_eq.1 h
        simp [h, h2]
      · simp [h]
  | cons s t ih =>
      intro p
      rw [List.foldl_cons, ih, parseEB_status]
      simp only [List.any_cons]
      by_cases hA : Eligibility.isActiveEB s = true
      · simp [hA]
      · by_cases hI : Eligibility.isInactiveEB s = true
        · by_cases hp : p.coverage_status = "Active"
          · simp [hA, hI, hp]
          · have hp2 : (p.coverage_status == "Active") = false := beq_eq_false_iff_ne.2 hp
            simp [hA, hI, hp, hp2, ite_self]
        · simp [hA, hI]

/-- Folding EB segments leaves the termination date unchanged. -/
theorem foldEB_term (ebs : List (List String)) :
    ∀ p : Eligibility.Patient,
      (ebs.foldl (fun p s => Eligibility.parseEB s p) p).term_date = p.term_date := by
  induction ebs with
  | nil => intro p; rfl
  | cons s t ih =>
      intro p
      rw [List.foldl_cons, ih, parseEB_term]

/-- The copay-defaulting block never touches the coverage status. -/
theorem copayPart_status (p : Eligibility.Patient) :
    (Eligibility.copayPart p).coverage_status = p.coverage_status := by
  unfold Eligibility.copayPart
  dsimp only
  split_ifs <;> (repeat (first | rfl | split))

/-- The display-date block never touches the coverage status. -/
theorem fmtPart_status (p : Eligibility.Patient) :
    (Eligibility.fmtPart p).coverage_status = p.coverage_status := by
  unfold Eligibility.fmtPart
  dsimp only
  split_ifs <;> rfl

/-- Coverage status after the termination block. -/
theorem termPart_status (now : Nat) (p : Eligibility.Patient) :
    (Eligibility.termPart now p).coverage_status =
      if Eligibility.validPastTerm p.term_date now &&
          (p.coverage_status == "Unknown" || p.coverage_status == "Inactive") then
        "Terminated"
      else p.coverage_status := by
  unfold Eligibility.termPart Eligibility.validPastTerm
  by_cases ht : (p.term_date != "") = true
  · rw [if_pos ht]
    cases hp : Eligibility.parseYMD? p.term_date with
    | some ymd =>
        obtain ⟨y, m, d⟩ := ymd
        dsimp only
        by_cases hd : Eligibility.encodeDT y m d 0 < now
        · rw [if_pos hd]
          by_cases hs : (p.coverage_status == "Unknown" ||
              p.coverage_status == "Inactive") = true
          · rw [if_pos hs]
            simp [ht, hd, hs]
          · rw [if_neg hs]
            simp [hs]
        · rw [if_neg hd]
          simp [hd]
    | none => dsimp only; simp
  · rw [if_neg ht]
    simp [ht]

/-- Coverage status after the whole finalization pass. -/
theorem finalize_status (now : Nat) (p : Eligibility.Patient) :
    (Eligibility.finalizePatient now p).coverage_status =
      if Eligibility.validPastTerm p.term_date now &&
          (p.coverage_status == "Unknown" || p.coverage_status == "Inactive") then
        "Terminated"
      else p.coverage_status := by
  unfold Eligibility.finalizePatient
  rw [fmtPart_status, copayPart_status, termPart_status]

/-- Claim C4 (corrected).  For a patient record built from a termination
date and a list of EB segments and then finalized, the final coverage
status gives precedence to Active, not to a past termination date: it is
"Active" when any EB01 in {1..5} was seen (even with a past termination
date), otherwise "Terminated" when the termination date is a valid past
`%Y%m%d` date, otherwise "Inactive" when any EB01 in {6, 7, 8} was seen,
and "Unknown" otherwise (not "Active", as the claim's final clause
asserts). -/
theorem C4_theorem (fp term : String) (ebs : List (List String)) (now : Nat) :
    (Eligibility.finalizePatient now
        (ebs.foldl (fun p s => Eligibility.parseEB s p)
          { Eligibility.newPatient fp with term_date := term })).coverage_status =
      if ebs.any Eligibility.isActiveEB then "Active"
      else if Eligibility.validPastTerm term now then "Terminated"
      else if ebs.any Eligibility.isInactiveEB then "Inactive"
      else "Unknown" := by
  rw [finalize_status]
  rw [foldEB_term, foldEB_status]
  have hs : ({ Eligibility.newPatient fp with term_date := term :
      Eligibility.Patient }).coverage_status = "Unknown" := rfl
  have ht : ({ Eligibility.newPatient fp with term_date := term :
      Eligibility.Patient }).term_date = term := rfl
  rw [hs, ht]
  by_cases hA : ebs.any Eligibility.isActiveEB = true
  · simp [hA]
  · by_cases hI : ebs.any Eligibility.isInactiveEB = true
    · by_cases hT : Eligibility.validPastTerm term now = true
      · simp [hA, hI, hT]
      · simp [hA, hI, hT]
    · by_cases hT : Eligibility.validPastTerm term now = true
      · simp [hA, hI, hT]
      · simp [hA, hI, hT]

/-- Claim C4 counterexample.  Parsing the 271 fragment
`HL*1**22*0~EB*1~DTP*357*D8*19990101~SE*4*0001~` with the current instant
injected as 2020-01-01 yields one record whose termination date 1999-01-01
is a valid past date, yet whose coverage status is "Active" (the EB*1
Active code wins), where the claim requires "Terminated". -/
theorem C4_counterexample :
    (Eligibility.parseFileRun "HL*1**22*0~EB*1~DTP*357*D8*19990101~SE*4*0001~"
        "elig.edi" (Eligibility.encodeDT 2020 1 1 0)).map
      (fun p => (p.coverage_status, p.term_date)) = [("Active", "19990101")] ∧
    Eligibility.validPastTerm "19990101" (Eligibility.encodeDT 2020 1 1 0) = true ∧
    ("Active" : String) ≠ "Terminated" := by decide

/-- On an HL level-22 segment the walker flushes the open record into the
output and opens a fresh one. -/
theorem step_hl22 (fp : String) (st : Eligibility.WalkState) (s : List String)
    (h : Eligibility.isHL22 s = true) :
    (Eligibility.step fp st s).patients = st.patients ++ st.current.toList ∧
    (Eligibility.step fp st s).current.isSome = true := by
  unfold Eligibility.isHL22 at h
  rw [Bool.and_eq_true] at h
  obtain ⟨h1, h2⟩ := h
  have h1' : s.headD "" = "HL" := beq_iff_eq.1 h1
  have h2' : Eligibility.elem s 3 = "22" := beq_iff_eq.1 h2
  unfold Eligibility.step
  dsimp only
  rw [h1']
  simp only [show (("HL" == "ISA" || "HL" == "GS" || "HL" == "ST" || "HL" == "BHT") = true) =
    False by simp, show (("HL" == "HL") = true) = True by simp, if_false, if_true]
  unfold Eligibility.hlHandle
  dsimp only
  rw [h2']
  simp

/-- The HL handler on a level other than 22 flushes nothing. -/
theorem hl_other (fp : String) (st : Eligibility.WalkState) (s : List String)
    (h : (Eligibility.elem s 3 == "22") = false) :
    (Eligibility.hlHandle fp st s).patients = st.patients ∧
    (Eligibility.hlHandle fp st s).current.isSome = st.current.isSome := by
  unfold Eligibility.hlHandle
  dsimp only
  split_ifs <;> simp_all

theorem nm1_keeps (st : Eligibility.WalkState) (s : List String) :
    (Eligibility.nm1Handle st s).patients = st.patients ∧
    (Eligibility.nm1Handle st s).current.isSome = st.current.isSome := by
  unfold Eligibility.nm1Handle
  cases hc : st.current <;> dsimp only <;> split_ifs <;> simp_all

theorem dmg_keeps (st : Eligibility.WalkState) (s : List String) :
    (Eligibility.dmgHandle st s).patients = st.patients ∧
    (Eligibility.dmgHandle st s).current.isSome = st.current.isSome := by
  unfold Eligibility.dmgHandle
  cases hc : st.current <;> dsimp only <;> split_ifs <;> simp_all

theorem n3_keeps (st : Eligibility.WalkState) (s : List String) :
    (Eligibility.n3Handle st s).patients = st.patients ∧
    (Eligibility.n3Handle st s).current.isSome = st.current.isSome := by
  unfold Eligibility.n3Handle
  cases hc : st.current <;> dsimp only <;> split_ifs <;> simp_all

theorem n4_keeps (st : Eligibility.WalkState) (s : List String) :
    (Eligibility.n4Handle st s).patients = st.patients ∧
    (Eligibility.n4Handle st s).current.isSome = st.current.isSome := by
  unfold Eligibility.n4Handle
  cases hc : st.current <;> dsimp only <;> split_ifs <;> simp_all

theorem ins_keeps (st : Eligibility.WalkState) (s : List String) :
    (Eligibility.insHandle st s).patients = st.patients ∧
    (Eligibility.insHandle st s).current.isSome = st.current.isSome := by
  unfold Eligibility.insHandle
  cases hc : st.current <;> dsimp only <;> split_ifs <;> simp_all

theorem trn_keeps (st : Eligibility.WalkState) (s : List String) :
    (Eligibility.trnHandle st s).patients = st.patients ∧
    (Eligibility.trnHandle st s).current.isSome = st.current.isSome := by
  unfold Eligibility.trnHandle
  cases hc : st.current <;> dsimp only <;> split_ifs <;> simp_all

theorem dtp_keeps (st : Eligibility.WalkState) (s : List String) :
    (Eligibility.dtpHandle st s).patients = st.patients ∧
    (Eligibility.dtpHandle st s).current.isSome = st.current.isSome := by
  unfold Eligibility.dtpHandle
  cases hc : st.current <;> dsimp only <;> split_ifs <;> simp_all

theorem ref_keeps (st : Eligibility.WalkState) (s : List String) :
    (Eligibility.refHandle st s).patients = st.patients ∧
    (Eligibility.refHandle st s).current.isSome = st.current.isSome := by
  unfold Eligibility.refHandle
  cases hc : st.current <;> dsimp only <;> split_ifs <;> simp_all

theorem prv_keeps (st : Eligibility.WalkState) (s : List String) :
    (Eligibility.prvHandle st s).patients = st.patients ∧
    (Eligibility.prvHandle st s).current.isSome = st.current.isSome := by
  unfold Eligibility.prvHandle
  split_ifs <;> simp_all

theorem eb_keeps (st : Eligibility.WalkState) (s : List String) :
    (Eligibility.ebHandle st s).patients = st.patients ∧
    (Eligibility.ebHandle st s).current.isSome = st.current.isSome := by
  unfold Eligibility.ebHandle
  cases hc : st.current <;> simp_all

theorem msg_keeps (st : Eligibility.WalkState) (s : List String) :
    (Eligibility.msgHandle st s).patients = st.patients ∧
    (Eligibility.msgHandle st s).current.isSome = st.current.isSome := by
  unfold Eligibility.msgHandle
  cases hc : st.current <;> dsimp only <;> (try split_ifs) <;> simp_all

/-- On any other segment the walker flushes nothing and keeps a record open
iff one was open. -/
theorem step_other (fp : String) (st : Eligibility.WalkState) (s : List String)
    (h : Eligibility.isHL22 s = false) :
    (Eligibility.step fp st s).patients = st.patients ∧
    (Eligibility.step fp st s).current.isSome = st.current.isSome := by
  have hhl : (s.headD "" == "HL") = true → (Eligibility.elem s 3 == "22") = false := by
    intro hH
    unfold Eligibility.isHL22 at h
    rw [Bool.and_eq_false_iff] at h
    rcases h with h | h
    · rw [hH] at h
      simp at h
    · exact h
  unfold Eligibility.step
  dsimp only
  by_cases g1 : (s.headD "" == "ISA" || s.headD "" == "GS" || s.headD "" == "ST" ||
      s.headD "" == "BHT") = true
  · rw [if_pos g1]
    exact ⟨rfl, rfl⟩
  rw [if_neg g1]
  by_cases g2 : (s.headD "" == "HL") = true
  · rw [if_pos g2]
    exact hl_other fp st s (hhl g2)
  rw [if_neg g2]
  by_cases g3 : (s.headD "" == "NM1") = true
  · rw [if_pos g3]
    exact nm1_keeps st s
  rw [if_neg g3]
  by_cases g4 : (s.headD "" == "DMG") = true
  · rw [if_pos g4]
    exact dmg_keeps st s
  rw [if_neg g4]
  by_cases g5 : (s.headD "" == "N3") = true
  · rw [if_pos g5]
    exact n3_keeps st s
  rw [if_neg g5]
  by_cases g6 : (s.headD "" == "N4") = true
  · rw [if_pos g6]
    exact n4_keeps st s
  rw [if_neg g6]
  by_cases g7 : (s.headD "" == "INS") = true
  · rw [if_pos g7]
    exact ins_keeps st s
  rw [if_neg g7]
  by_cases g8 : (s.headD "" == "TRN") = true
  · rw [if_pos g8]
    exact trn_keeps st s
  rw [if_neg g8]
  by_cases g9 : (s.headD "" == "DTP") = true
  · rw [if_pos g9]
    exact dtp_keeps st s
  rw [if_neg g9]
  by_cases g10 : (s.headD "" == "REF") = true
  · rw [if_pos g10]
    exact ref_keeps st s
  rw [if_neg g10]
  by_cases g11 : (s.headD "" == "PRV") = true
  · rw [if_pos g11]
    exact prv_keeps st s
  rw [if_neg g11]
  by_cases g12 : (s.headD "" == "EB") = true
  · rw [if_pos g12]
    exact eb_keeps st s
  rw [if_neg g12]
  by_cases g13 : (s.headD "" == "MSG") = true
  · rw [if_pos g13]
    exact msg_keeps st s
  rw [if_neg g13]
  by_cases g14 : (s.headD "" == "SE" || s.headD "" == "GE" || s.headD "" == "IEA") = true
  · rw [if_pos g14]
    exact ⟨rfl, rfl⟩
  rw [if_neg g14]
  exact ⟨rfl, rfl⟩

theorem optionToList_len (o : Option Eligibility.Patient) :
    o.toList.length = if o.isSome then 1 else 0 := by
  cases o <;> rfl

/-- Counting invariant of the walker: open-plus-flushed records grow by
exactly one per HL level-22 segment. -/
theorem walk_count (fp : String) :
    ∀ (segs : List (List String)) (st : Eligibility.WalkState),
      (segs.foldl (Eligibility.step fp) st).patients.length +
        (segs.foldl (Eligibility.step fp) st).current.toList.length =
      st.patients.length + st.current.toList.length +
        (segs.filter Eligibility.isHL22).length := by
  intro segs
  induction segs with
  | nil => intro st; simp
  | cons s t ih =>
      intro st
      rw [List.foldl_cons, ih (Eligibility.step fp st s), List.filter_cons]
      cases hs : Eligibility.isHL22 s with
      | true =>
          obtain ⟨h1, h2⟩ := step_hl22 fp st s hs
          rw [h1]
          simp only [List.length_append, optionToList_len, h2, if_true, List.length_cons]
          omega
      | false =>
          obtain ⟨h1, h2⟩ := step_other fp st s hs
          rw [h1]
          simp only [optionToList_len, h2, Bool.false_eq_true, if_false]

/-- Claim C5 (confirmed).  The 271 walker flushes the previously open
subscriber record exactly at HL level-22 segments (and nothing at any
other segment), flushes the last open record at end-of-input, and no
record is duplicated or dropped: the output list holds exactly one record
per HL level-22 segment of the input. -/
theorem C5_theorem (fp : String) (now : Nat) (segs : List (List String)) :
    (∀ (st : Eligibility.WalkState) (s : List String), Eligibility.isHL22 s = true →
        (Eligibility.step fp st s).patients = st.patients ++ st.current.toList) ∧
    (∀ (st : Eligibility.WalkState) (s : List String), Eligibility.isHL22 s = false →
        (Eligibility.step fp st s).patients = st.patients) ∧
    (Eligibility.walkSegments fp now segs).length =
      (segs.filter Eligibility.isHL22).length := by
  refine ⟨fun st s hs => (step_hl22 fp st s hs).1,
          fun st s hs => (step_other fp st s hs).1, ?_⟩
  unfold Eligibility.walkSegments
  dsimp only
  rw [List.length_map, List.length_append]
  have hw := walk_count fp segs Eligibility.initState
  have hz1 : Eligibility.initState.patients.length = 0 := rfl
  have hz2 : Eligibility.initState.current.toList.length = 0 := rfl
  rw [hw, hz1, hz2]
  omega

/-- Claim C5 witness: the flush on a concrete HL-22 segment, and the
record count of a concrete two-subscriber 271 fragment. -/
theorem C5_witness :
    (Eligibility.step "f.edi" Eligibility.initState ["HL", "1", "", "22", "0"]).patients =
      Eligibility.initState.patients ++ Eligibility.initState.current.toList ∧
    (Eligibility.walkSegments "f.edi" 0
        (Eligibility.tokenize "HL*1**22*0~EB*1~HL*2**22*0~SE*1*1~")).length =
      ((Eligibility.tokenize "HL*1**22*0~EB*1~HL*2**22*0~SE*1*1~").filter
        Eligibility.isHL22).length :=
  ⟨( C5_theorem "f.edi" 0 []).1 Eligibility.initState ["HL", "1", "", "22", "0"] (by decide),
   ( C5_theorem "f.edi" 0 (Eligibility.tokenize "HL*1**22*0~EB*1~HL*2**22*0~SE*1*1~")).2.2⟩
